import Mathlib

/-!
# Bluetooth mesh switch node: event dispatcher

A shallow embedding of `main.c` (the stack-event handler `handle_gecko_event`
and the helpers it calls) and of `src/gpio.h`.

* The C globals become the record `Globals`.
* Every `gecko_cmd_*` call (and the `mesh_lib_init` call) is recorded, in
  program order, in a list of `Cmd`; the result code a command returns is
  read from a result oracle, indexed by the position of the command among
  the commands one handler invocation issues.
* `gecko_cmd_system_reset` reboots the device and does not return to its
  caller: a handler ends with that command, its globals as they were when
  the command was issued.
* `printf` and `DI_Print` write to the serial console and to the LCD; they
  issue no stack command and touch no global, and are left out.
* `uint8_t` / `uint16_t` stores are reduced modulo `2^8` / `2^16`.
-/

namespace SwitchNode

/-! ## Constants of `main.c` and `src/gpio.h` -/

/-- Timer frequency used (`TIMER_CLK_FREQ`, a `uint32_t`). -/
def TIMER_CLK_FREQ : Nat := 32768

/-- Convert milliseconds to timer ticks; the product is a `uint32_t`. -/
def TIMER_MS_2_TIMERTICK (ms : Nat) : Nat := ((TIMER_CLK_FREQ * ms) % 2 ^ 32) / 1000

/-- Stop timer. -/
def TIMER_STOP : Nat := 0

def TIMER_ID_RESTART : Nat := 78
def TIMER_ID_FACTORY_RESET : Nat := 77
def TIMER_ID_PROVISIONING : Nat := 66
def TIMER_ID_FRIEND_FIND : Nat := 20

/-- Maximum number of simultaneous Bluetooth connections. -/
def MAX_CONNECTIONS : Nat := 2

def EVENT_PB0_RISING : Nat := 1 <<< 1
def EVENT_PB0_FALLING : Nat := 1 <<< 2

/-- GPIO ports named in `src/gpio.h`. -/
inductive Port where
  | gpioPortD
  | gpioPortF
deriving DecidableEq, Repr

def Button_port : Port := Port.gpioPortF
def Button_pin : Nat := 6
def Button1 : Nat := 7

/-- First argument of `gecko_cmd_mesh_lpn_config`: the two settings `lpn_init` configures. -/
inductive LpnSetting where
  | mesh_lpn_queue_length
  | mesh_lpn_poll_timeout
deriving DecidableEq, Repr

/-- Identifiers that `main.c` takes from the generated headers `gatt_db.h` and
`bg_errorcodes.h`, which are not part of the sources; they are parameters of the model. -/
structure Sdk where
  gattdb_device_name : Nat
  gattdb_ota_control : Nat
  bg_err_success : Nat
deriving DecidableEq, Repr

/-- A Bluetooth address, `uint8 addr[6]`. -/
structure bd_addr where
  addr : Fin 6 → Nat

/-- What the handler reads from the hardware and the stack while it runs: the input
level of a pin (`GPIO_PinInGet`) and the address in the response of
`gecko_cmd_system_get_bt_address`. -/
structure Env where
  GPIO_PinInGet : Port → Nat → Nat
  bt_address : bd_addr

/-! ## Commands and events -/

/-- The commands the application issues to the stack, with their arguments. -/
inductive Cmd where
  | mesh_lpn_init
  | mesh_lpn_config (setting : LpnSetting) (value : Nat)
  | mesh_lpn_establish_friendship (netkey_index : Nat)
  | hardware_set_soft_timer (time : Nat) (handle : Nat) (single_shot : Nat)
  | mesh_lpn_terminate_friendship
  | mesh_lpn_deinit
  | mesh_lib_init (generic_models : Nat)
  | gatt_server_write_attribute_value (attr : Nat) (offset : Nat) (len : Nat)
      (value : List Char)
  | le_connection_close (connection : Nat)
  | flash_ps_erase_all
  | system_get_bt_address
  | mesh_node_init
  | system_reset (dfu : Nat)
  | mesh_generic_client_init
  | mesh_scene_client_init (elem_index : Nat)
  | mesh_node_start_unprov_beaconing (bearer : Nat)
  | gatt_server_send_user_write_response (connection : Nat) (characteristic : Nat)
      (att_errorcode : Nat)
  | external_signal (signals : Nat)
deriving DecidableEq, Repr

/-- The events `handle_gecko_event` dispatches on, one constructor per `case` of its
`switch` with the payload fields that case reads or prints, and `unmatched` for every
identifier that falls to `default`. -/
inductive Event where
  | system_boot
  | hardware_soft_timer (handle : Nat)
  | mesh_node_initialized (provisioned : Nat) (address : Nat) (ivi : Nat)
  | system_external_signal (extsignals : Nat)
  | mesh_node_provisioning_started
  | mesh_node_provisioned (address : Nat)
  | mesh_node_provisioning_failed (result : Nat)
  | le_connection_opened (connection : Nat)
  | le_connection_closed (reason : Nat)
  | mesh_node_reset
  | le_connection_parameters (interval : Nat) (timeout : Nat)
  | le_gap_adv_timeout
  | gatt_server_user_write_request (connection : Nat) (characteristic : Nat)
  | mesh_lpn_friendship_established
  | mesh_lpn_friendship_failed
  | mesh_lpn_friendship_terminated
  | unmatched (evt_id : Nat)
deriving DecidableEq, Repr

/-! ## Global variables -/

/-- The global variables of `main.c`. -/
structure Globals where
  /-- Flag for indicating DFU Reset must be performed (`uint8_t`). -/
  boot_to_dfu : Nat
  /-- For indexing elements of the node (`uint16_t`). -/
  _elem_index : Nat
  /-- Address of the Primary Element of the Node (`uint16_t`). -/
  _my_address : Nat
  /-- Number of active Bluetooth connections (`uint8_t`). -/
  num_connections : Nat
  /-- Handle of the last opened LE connection (`uint8_t`). -/
  conn_handle : Nat
  /-- Flag for indicating that lpn feature is active (`uint8_t`). -/
  lpn_active : Nat
deriving DecidableEq, Repr

/-- The initializers of the globals. -/
def Globals.initial : Globals :=
  { boot_to_dfu := 0, _elem_index := 0xffff, _my_address := 0,
    num_connections := 0, conn_handle := 0xFF, lpn_active := 0 }

/-- The state threaded through one handler invocation: the globals and the commands
issued so far, oldest first. -/
structure Exec where
  g : Globals
  out : List Cmd
deriving DecidableEq, Repr

/-- Issue one command: it is appended to the commands issued so far, and its result code
is what the oracle holds for its position. -/
def gecko_cmd (ρ : Nat → Nat) (c : Cmd) (x : Exec) : Nat × Exec :=
  (ρ x.out.length, { x with out := x.out ++ [c] })

/-! ## The functions of `main.c` -/

/-- Initialize LPN functionality (`lpn_init`). -/
def lpn_init (ρ : Nat → Nat) (x : Exec) : Exec :=
  if x.g.lpn_active ≠ 0 ∨ x.g.num_connections ≠ 0 then x
  else
    let r1 := gecko_cmd ρ Cmd.mesh_lpn_init x
    if r1.1 ≠ 0 then r1.2
    else
      let x1 : Exec := { r1.2 with g := { r1.2.g with lpn_active := 1 } }
      let r2 := gecko_cmd ρ (Cmd.mesh_lpn_config LpnSetting.mesh_lpn_queue_length 2) x1
      if r2.1 ≠ 0 then r2.2
      else
        let r3 := gecko_cmd ρ (Cmd.mesh_lpn_config LpnSetting.mesh_lpn_poll_timeout (5 * 1000)) r2.2
        if r3.1 ≠ 0 then r3.2
        else (gecko_cmd ρ (Cmd.mesh_lpn_establish_friendship 0) r3.2).2

/-- Deinitialize LPN functionality (`lpn_deinit`). -/
def lpn_deinit (ρ : Nat → Nat) (x : Exec) : Exec :=
  if x.g.lpn_active = 0 then x
  else
    let r1 := gecko_cmd ρ (Cmd.hardware_set_soft_timer TIMER_STOP TIMER_ID_FRIEND_FIND 1) x
    let r2 := gecko_cmd ρ Cmd.mesh_lpn_terminate_friendship r1.2
    let r3 := gecko_cmd ρ Cmd.mesh_lpn_deinit r2.2
    { r3.2 with g := { r3.2.g with lpn_active := 0 } }

/-- Switch node initialization (`switch_node_init`): initialize mesh lib, up to 8 models. -/
def switch_node_init (ρ : Nat → Nat) (x : Exec) : Exec :=
  (gecko_cmd ρ (Cmd.mesh_lib_init 8) x).2

/-- One lowercase hexadecimal digit. -/
def hexDigit (d : Nat) : Char :=
  if d < 10 then Char.ofNat (48 + d) else Char.ofNat (87 + d)

/-- The conversion `%02x` of a `uint8` argument. -/
def fmt02x (b : Nat) : List Char :=
  [hexDigit ((b % 256) / 16), hexDigit ((b % 256) % 16)]

/-- The name `sprintf(name, "switch node %02x:%02x", addr[1], addr[0])` builds. -/
def device_name (a : bd_addr) : List Char :=
  "switch node ".toList ++ fmt02x (a.addr 1) ++ [':'] ++ fmt02x (a.addr 0)

/-- Set device name in the GATT database (`set_device_name`). -/
def set_device_name (sdk : Sdk) (ρ : Nat → Nat) (pAddr : bd_addr) (x : Exec) : Exec :=
  let name := device_name pAddr
  (gecko_cmd ρ (Cmd.gatt_server_write_attribute_value sdk.gattdb_device_name 0
    name.length name) x).2

/-- Initiate factory reset (`initiate_factory_reset`). -/
def initiate_factory_reset (ρ : Nat → Nat) (x : Exec) : Exec :=
  let x1 := if x.g.conn_handle ≠ 0xFF
    then (gecko_cmd ρ (Cmd.le_connection_close x.g.conn_handle) x).2 else x
  let x2 := (gecko_cmd ρ Cmd.flash_ps_erase_all x1).2
  (gecko_cmd ρ (Cmd.hardware_set_soft_timer (2 * 32768) TIMER_ID_FACTORY_RESET 1) x2).2

/-- The `switch (evt_id)` of `handle_gecko_event`, on a non-null event. -/
def dispatch (sdk : Sdk) (env : Env) (ρ : Nat → Nat) (evt : Event) (x : Exec) : Exec :=
  match evt with
  | Event.system_boot =>
    if env.GPIO_PinInGet Button_port Button_pin = 0 ∨ env.GPIO_PinInGet Button_port Button1 = 0
    then initiate_factory_reset ρ x
    else
      let x1 := (gecko_cmd ρ Cmd.system_get_bt_address x).2
      let x2 := set_device_name sdk ρ env.bt_address x1
      (gecko_cmd ρ Cmd.mesh_node_init x2).2
  | Event.hardware_soft_timer handle =>
    if handle = TIMER_ID_FACTORY_RESET then (gecko_cmd ρ (Cmd.system_reset 0) x).2
    else if handle = TIMER_ID_RESTART then (gecko_cmd ρ (Cmd.system_reset 0) x).2
    else if handle = TIMER_ID_FRIEND_FIND then
      (gecko_cmd ρ (Cmd.mesh_lpn_establish_friendship 0) x).2
    else x
  | Event.mesh_node_initialized provisioned address _ =>
    let x1 := (gecko_cmd ρ Cmd.mesh_generic_client_init x).2
    let x2 := (gecko_cmd ρ (Cmd.mesh_scene_client_init 0) x1).2
    if provisioned ≠ 0 then
      let x3 : Exec := { x2 with g := { x2.g with _my_address := address % 2 ^ 16 } }
      let x4 : Exec := { x3 with g := { x3.g with _elem_index := 0 } }
      let x5 := switch_node_init ρ x4
      lpn_init ρ x5
    else
      (gecko_cmd ρ (Cmd.mesh_node_start_unprov_beaconing 0x3) x2).2
  | Event.system_external_signal _ => x
  | Event.mesh_node_provisioning_started =>
    (gecko_cmd ρ (Cmd.hardware_set_soft_timer (32768 / 4) TIMER_ID_PROVISIONING 0) x).2
  | Event.mesh_node_provisioned _ =>
    let x1 : Exec := { x with g := { x.g with _elem_index := 0 } }
    switch_node_init ρ x1
  | Event.mesh_node_provisioning_failed _ =>
    (gecko_cmd ρ (Cmd.hardware_set_soft_timer (2 * 32768) TIMER_ID_RESTART 1) x).2
  | Event.le_connection_opened connection =>
    let x1 : Exec := { x with g := { x.g with num_connections := (x.g.num_connections + 1) % 2 ^ 8 } }
    let x2 : Exec := { x1 with g := { x1.g with conn_handle := connection % 2 ^ 8 } }
    lpn_deinit ρ x2
  | Event.le_connection_closed _ =>
    if x.g.boot_to_dfu ≠ 0 then
      -- `gecko_cmd_system_reset(2)` reboots into DFU mode and does not return
      (gecko_cmd ρ (Cmd.system_reset 2) x).2
    else
      let x2 : Exec := { x with g := { x.g with conn_handle := 0xFF } }
      if x2.g.num_connections > 0 then
        let x3 : Exec := { x2 with g := { x2.g with num_connections := x2.g.num_connections - 1 } }
        if x3.g.num_connections = 0 then lpn_init ρ x3 else x3
      else x2
  | Event.mesh_node_reset => initiate_factory_reset ρ x
  | Event.le_connection_parameters _ _ => x
  | Event.le_gap_adv_timeout => x
  | Event.gatt_server_user_write_request connection characteristic =>
    if characteristic = sdk.gattdb_ota_control then
      let x1 : Exec := { x with g := { x.g with boot_to_dfu := 1 } }
      let x2 := (gecko_cmd ρ (Cmd.gatt_server_send_user_write_response connection
        sdk.gattdb_ota_control sdk.bg_err_success) x1).2
      (gecko_cmd ρ (Cmd.le_connection_close connection) x2).2
    else x
  | Event.mesh_lpn_friendship_established => x
  | Event.mesh_lpn_friendship_failed => x
  | Event.mesh_lpn_friendship_terminated =>
    if x.g.num_connections = 0 then
      (gecko_cmd ρ (Cmd.hardware_set_soft_timer (TIMER_MS_2_TIMERTICK 2000)
        TIMER_ID_FRIEND_FIND 1) x).2
    else x
  | Event.unmatched _ => x

/-- Handling of stack events (`handle_gecko_event`): a null event pointer (`none`) returns
at once, any other event goes through the `switch`.  The result is the globals after the
call and the commands the call issued, in order. -/
def handle_gecko_event (sdk : Sdk) (env : Env) (ρ : Nat → Nat) (evt : Option Event)
    (g : Globals) : Globals × List Cmd :=
  match evt with
  | none => (g, [])
  | some e =>
    let x := dispatch sdk env ρ e { g := g, out := [] }
    (x.g, x.out)

/-- One pass of the loop of `main` whose event the mesh listener passes on: the event, what
the handler reads from its environment, and the result codes of the commands it issues. -/
structure Input where
  evt : Event
  env : Env
  ρ : Nat → Nat

/-- The globals after handling a sequence of events, one after the other. -/
def run (sdk : Sdk) : Globals → List Input → Globals
  | g, [] => g
  | g, i :: is => run sdk (handle_gecko_event sdk i.env i.ρ (some i.evt) g).1 is

/-- The interrupt callback of `src/gpio.c` (`GPIO_callback`): the signal it injects with
`gecko_external_signal`, chosen by the level read on the PB0 pin. -/
def GPIO_callback (env : Env) : List Cmd :=
  if env.GPIO_PinInGet Button_port Button_pin = 1
  then [Cmd.external_signal EVENT_PB0_FALLING]
  else [Cmd.external_signal EVENT_PB0_RISING]

/-! ## Reference definitions and sample inputs -/

/-- The spec's connection count, one event at a time: an open adds 1, a close subtracts 1
without going below 0, any other event leaves it. -/
def spec_count_step (n : Nat) : Event → Nat
  | Event.le_connection_opened _ => n + 1
  | Event.le_connection_closed _ => n - 1
  | _ => n

/-- The spec's `active_count` after a sequence of events: opens minus closes, clamped at 0
event by event, starting at 0. -/
def spec_active_count (evs : List Event) : Nat := evs.foldl spec_count_step 0

/-- Sample values for the identifiers of the generated headers. -/
def sample_sdk : Sdk := { gattdb_device_name := 11, gattdb_ota_control := 22, bg_err_success := 0 }

/-- A sample environment: no button held, address `00:0b:57:00:12:34` (stored low byte first). -/
def sample_env : Env :=
  { GPIO_PinInGet := fun _ _ => 1,
    bt_address := { addr := fun i => [0x34, 0x12, 0x00, 0x57, 0x0b, 0x00].getD i.val 0 } }

/-- A sample environment with push button PB0 held down. -/
def sample_env_pb0 : Env :=
  { sample_env with GPIO_PinInGet := fun _ pin => if pin = Button_pin then 0 else 1 }

/-- The result oracle under which every command succeeds. -/
def all_ok : Nat → Nat := fun _ => 0

/-- An input whose commands all succeed, in the sample environment. -/
def ok_input (e : Event) : Input := { evt := e, env := sample_env, ρ := all_ok }

/-! ## Auxiliary definitions used in the proofs -/

/-- The part of the connection-closed case that runs when no DFU reset is pending, as a
function of the execution state it is entered with (proof device; `dispatch_closed` ties it
to `dispatch`). -/
def closed_tail (ρ : Nat → Nat) (x1 : Exec) : Exec :=
  let x2 : Exec := { x1 with g := { x1.g with conn_handle := 0xFF } }
  if x2.g.num_connections > 0 then
    let x3 : Exec := { x2 with g := { x2.g with num_connections := x2.g.num_connections - 1 } }
    if x3.g.num_connections = 0 then lpn_init ρ x3 else x3
  else x2

/-- The invariant of the LPN flag: the feature is active only with no connection open. -/
def LpnInv (g : Globals) : Prop := g.lpn_active ≠ 0 → g.num_connections = 0

/-- What one event does to a connection count `n` held in a `uint8_t`. -/
def next_count (n : Nat) : Event → Nat
  | Event.le_connection_opened _ => (n + 1) % 2 ^ 8
  | Event.le_connection_closed _ => n - 1
  | _ => n

/-- What one event does to the connection handle `h`. -/
def next_handle (h : Nat) : Event → Nat
  | Event.le_connection_opened connection => connection % 2 ^ 8
  | Event.le_connection_closed _ => 0xFF
  | _ => h

/-- The commands `lpn_init` issues when every step runs. -/
def lpn_enter_cmds : List Cmd :=
  [Cmd.mesh_lpn_init, Cmd.mesh_lpn_config LpnSetting.mesh_lpn_queue_length 2,
   Cmd.mesh_lpn_config LpnSetting.mesh_lpn_poll_timeout 5000,
   Cmd.mesh_lpn_establish_friendship 0]

/-- The commands issued while handling a sequence of events, one after the other, in
order. -/
def trace (sdk : Sdk) : Globals → List Input → List Cmd
  | _, [] => []
  | g, i :: is =>
    (handle_gecko_event sdk i.env i.ρ (some i.evt) g).2 ++
      trace sdk (handle_gecko_event sdk i.env i.ρ (some i.evt) g).1 is

/-- The LPN commands: init, config, establish friendship, terminate friendship, deinit. -/
def Cmd.isLpn : Cmd → Bool
  | Cmd.mesh_lpn_init => true
  | Cmd.mesh_lpn_config _ _ => true
  | Cmd.mesh_lpn_establish_friendship _ => true
  | Cmd.mesh_lpn_terminate_friendship => true
  | Cmd.mesh_lpn_deinit => true
  | _ => false

/-- A node-initialized event whose provisioned flag is set. -/
def Event.isProvisionedInit : Event → Bool
  | Event.mesh_node_initialized provisioned _ _ => provisioned != 0
  | _ => false

/-- A GATT user-write-request whose characteristic is the OTA-control characteristic. -/
def Event.isOtaWrite (sdk : Sdk) : Event → Bool
  | Event.gatt_server_user_write_request _ characteristic =>
    characteristic == sdk.gattdb_ota_control
  | _ => false

/-- The sixteen lowercase hexadecimal digits, in order. -/
def hex_digits : List Char := "0123456789abcdef".toList

/-- A byte written as the spec words it: two lowercase hex digits, high nibble first. -/
def spec_hex_byte (b : Nat) : List Char :=
  [hex_digits.getD (b / 16) '?', hex_digits.getD (b % 16) '?']

/-- The size of the buffer `char name[20]` of `set_device_name`. -/
def NAME_BUFFER_SIZE : Nat := 20

/-! ## Theorems -/

/-! ## Effect of the LPN helpers on the globals -/

/-- `lpn_init` either leaves the globals alone or, entered with no LPN and no connection,
sets `lpn_active` to 1 and nothing else. -/
theorem lpn_init_globals (ρ : Nat → Nat) (x : Exec) :
    (lpn_init ρ x).g = x.g ∨
    (x.g.lpn_active = 0 ∧ x.g.num_connections = 0 ∧
      (lpn_init ρ x).g = { x.g with lpn_active := 1 }) := by
  unfold lpn_init gecko_cmd
  by_cases h : x.g.lpn_active ≠ 0 ∨ x.g.num_connections ≠ 0
  · simp [h]
  · have h1 : x.g.lpn_active = 0 := by
      by_contra hc; exact h (Or.inl hc)
    have h2 : x.g.num_connections = 0 := by
      by_contra hc; exact h (Or.inr hc)
    simp only [h, if_false]
    split
    · left; rfl
    · right
      refine ⟨h1, h2, ?_⟩
      split
      · rfl
      · split <;> rfl

/-- `lpn_deinit` clears `lpn_active` and changes no other global. -/
theorem lpn_deinit_globals (ρ : Nat → Nat) (x : Exec) :
    (lpn_deinit ρ x).g = { x.g with lpn_active := 0 } := by
  unfold lpn_deinit gecko_cmd
  split
  · next h =>
    cases x with
    | mk g out =>
      cases g
      simp at h
      simp [h]
  · rfl

/-- `initiate_factory_reset` changes no global. -/
theorem initiate_factory_reset_globals (ρ : Nat → Nat) (x : Exec) :
    (initiate_factory_reset ρ x).g = x.g := by
  unfold initiate_factory_reset gecko_cmd
  split <;> rfl

/-- The connection-closed case is the DFU reset, or else `closed_tail`. -/
theorem dispatch_closed (sdk : Sdk) (env : Env) (ρ : Nat → Nat) (reason : Nat) (x : Exec) :
    dispatch sdk env ρ (Event.le_connection_closed reason) x =
      if x.g.boot_to_dfu ≠ 0 then (gecko_cmd ρ (Cmd.system_reset 2) x).2
      else closed_tail ρ x := rfl

/-- The globals after `closed_tail`. -/
theorem closed_tail_globals (ρ : Nat → Nat) (x1 : Exec) :
    (closed_tail ρ x1).g =
      { x1.g with conn_handle := 0xFF, num_connections := x1.g.num_connections - 1 } ∨
    (x1.g.lpn_active = 0 ∧ x1.g.num_connections = 1 ∧
      (closed_tail ρ x1).g =
        { x1.g with conn_handle := 0xFF, num_connections := 0, lpn_active := 1 }) := by
  obtain ⟨g1, out⟩ := x1
  unfold closed_tail
  simp only
  by_cases hn : g1.num_connections > 0
  · simp only [hn, if_true]
    by_cases h0 : g1.num_connections - 1 = 0
    · simp only [h0, if_true]
      have h1 : g1.num_connections = 1 := by omega
      rcases lpn_init_globals ρ
        { g := { g1 with conn_handle := 0xFF, num_connections := 0 }, out := out }
        with h | ⟨ha, _, h⟩
      · left; rw [h]
      · right; exact ⟨ha, h1, by rw [h]⟩
    · simp only [h0, if_false]
      left; trivial
  · simp only [hn, if_false]
    left
    have h0 : g1.num_connections = 0 := by omega
    cases g1
    simp only at h0
    simp [h0]

/-- A connection-closed event with a DFU reset pending: the reset is the only command and
no global changes. -/
theorem closed_dfu (sdk : Sdk) (env : Env) (ρ : Nat → Nat) (reason : Nat) (g : Globals)
    (hd : g.boot_to_dfu ≠ 0) :
    handle_gecko_event sdk env ρ (some (Event.le_connection_closed reason)) g =
      (g, [Cmd.system_reset 2]) := by
  simp only [handle_gecko_event, dispatch_closed]
  rw [if_pos hd]
  rfl

/-- The globals after a connection-closed event with no DFU reset pending: the handle is the
sentinel and the count is decremented unless it is 0; `lpn_active` is either as before or
set to 1, the latter only when the last connection closes with LPN off. -/
theorem closed_globals (sdk : Sdk) (env : Env) (ρ : Nat → Nat) (reason : Nat) (g : Globals)
    (hd : g.boot_to_dfu = 0) :
    (handle_gecko_event sdk env ρ (some (Event.le_connection_closed reason)) g).1 =
      { g with conn_handle := 0xFF, num_connections := g.num_connections - 1 } ∨
    (g.lpn_active = 0 ∧ g.num_connections = 1 ∧
      (handle_gecko_event sdk env ρ (some (Event.le_connection_closed reason)) g).1 =
        { g with conn_handle := 0xFF, num_connections := 0, lpn_active := 1 }) := by
  simp only [handle_gecko_event, dispatch_closed]
  rw [if_neg (by simp [hd])]
  exact closed_tail_globals ρ { g := g, out := [] }

/-- Every handler invocation preserves `LpnInv`. -/
theorem handle_gecko_event_LpnInv (sdk : Sdk) (env : Env) (ρ : Nat → Nat) (e : Event)
    (g : Globals) (hg : LpnInv g) :
    LpnInv (handle_gecko_event sdk env ρ (some e) g).1 := by
  unfold LpnInv at *
  cases e with
  | system_boot =>
    simp only [handle_gecko_event, dispatch]
    split
    · rw [initiate_factory_reset_globals]; exact hg
    · exact hg
  | hardware_soft_timer handle =>
    simp only [handle_gecko_event, dispatch]
    split_ifs <;> exact hg
  | mesh_node_initialized provisioned address ivi =>
    simp only [handle_gecko_event, dispatch]
    split
    · rcases lpn_init_globals ρ (switch_node_init ρ
        { g := { g with _my_address := address % 2 ^ 16, _elem_index := 0 },
          out := [Cmd.mesh_generic_client_init, Cmd.mesh_scene_client_init 0] }) with h | ⟨_, h0, _⟩
      · simp only [switch_node_init, gecko_cmd, List.nil_append, List.cons_append] at h ⊢
        rw [h]; exact hg
      · simp only [switch_node_init, gecko_cmd, List.nil_append, List.cons_append] at h0 ⊢
        intro _
        rcases lpn_init_globals ρ
          { g := { g with _my_address := address % 2 ^ 16, _elem_index := 0 },
            out := [Cmd.mesh_generic_client_init, Cmd.mesh_scene_client_init 0,
              Cmd.mesh_lib_init 8] } with h | ⟨_, _, h⟩
        · rw [h]; exact h0
        · rw [h]; exact h0
    · exact hg
  | system_external_signal _ => exact hg
  | mesh_node_provisioning_started => exact hg
  | mesh_node_provisioned _ => exact hg
  | mesh_node_provisioning_failed _ => exact hg
  | le_connection_opened connection =>
    simp only [handle_gecko_event, dispatch]
    rw [lpn_deinit_globals]
    intro h
    exact absurd rfl h
  | le_connection_closed reason =>
    by_cases hd : g.boot_to_dfu = 0
    · rcases closed_globals sdk env ρ reason g hd with h | ⟨_, _, h⟩
      · rw [h]
        intro hl
        have := hg hl
        simp only [this]
      · rw [h]
        intro _
        rfl
    · rw [closed_dfu sdk env ρ reason g hd]
      exact hg
  | mesh_node_reset =>
    simp only [handle_gecko_event, dispatch]
    rw [initiate_factory_reset_globals]; exact hg
  | le_connection_parameters _ _ => exact hg
  | le_gap_adv_timeout => exact hg
  | gatt_server_user_write_request connection characteristic =>
    simp only [handle_gecko_event, dispatch]
    split <;> exact hg
  | mesh_lpn_friendship_established => exact hg
  | mesh_lpn_friendship_failed => exact hg
  | mesh_lpn_friendship_terminated =>
    simp only [handle_gecko_event, dispatch]
    split <;> exact hg
  | unmatched _ => exact hg

/-- `lpn_init` leaves every global but `lpn_active` alone. -/
theorem lpn_init_frame (ρ : Nat → Nat) (x : Exec) :
    (lpn_init ρ x).g.num_connections = x.g.num_connections ∧
    (lpn_init ρ x).g.conn_handle = x.g.conn_handle ∧
    (lpn_init ρ x).g.boot_to_dfu = x.g.boot_to_dfu ∧
    (lpn_init ρ x).g._elem_index = x.g._elem_index ∧
    (lpn_init ρ x).g._my_address = x.g._my_address := by
  rcases lpn_init_globals ρ x with h | ⟨_, _, h⟩ <;> rw [h] <;> simp

/-- The connection count and the connection handle after any event, a connection-closed
event with a DFU reset pending apart. -/
theorem handle_gecko_event_connection (sdk : Sdk) (env : Env) (ρ : Nat → Nat) (e : Event)
    (g : Globals) (hd : g.boot_to_dfu = 0 ∨ ∀ r, e ≠ Event.le_connection_closed r) :
    (handle_gecko_event sdk env ρ (some e) g).1.num_connections = next_count g.num_connections e ∧
    (handle_gecko_event sdk env ρ (some e) g).1.conn_handle = next_handle g.conn_handle e := by
  cases e with
  | system_boot =>
    simp only [handle_gecko_event, dispatch, next_count, next_handle]
    split
    · rw [initiate_factory_reset_globals]; exact ⟨rfl, rfl⟩
    · exact ⟨rfl, rfl⟩
  | hardware_soft_timer handle =>
    simp only [handle_gecko_event, dispatch, next_count, next_handle]
    split_ifs <;> exact ⟨rfl, rfl⟩
  | mesh_node_initialized provisioned address ivi =>
    simp only [handle_gecko_event, dispatch, next_count, next_handle]
    split
    · obtain ⟨h1, h2, _⟩ := lpn_init_frame ρ (switch_node_init ρ
        { g := { g with _my_address := address % 2 ^ 16, _elem_index := 0 },
          out := [Cmd.mesh_generic_client_init, Cmd.mesh_scene_client_init 0] })
      exact ⟨h1, h2⟩
    · exact ⟨rfl, rfl⟩
  | system_external_signal _ => exact ⟨rfl, rfl⟩
  | mesh_node_provisioning_started => exact ⟨rfl, rfl⟩
  | mesh_node_provisioned _ => exact ⟨rfl, rfl⟩
  | mesh_node_provisioning_failed _ => exact ⟨rfl, rfl⟩
  | le_connection_opened connection =>
    simp only [handle_gecko_event, dispatch, next_count, next_handle]
    rw [lpn_deinit_globals]
    exact ⟨rfl, rfl⟩
  | le_connection_closed reason =>
    simp only [next_count, next_handle]
    have hd0 : g.boot_to_dfu = 0 := by
      rcases hd with h | h
      · exact h
      · exact absurd rfl (h reason)
    rcases closed_globals sdk env ρ reason g hd0 with h | ⟨_, h1, h⟩
    · rw [h]; exact ⟨rfl, rfl⟩
    · rw [h, h1]; exact ⟨rfl, rfl⟩
  | mesh_node_reset =>
    simp only [handle_gecko_event, dispatch, next_count, next_handle]
    rw [initiate_factory_reset_globals]; exact ⟨rfl, rfl⟩
  | le_connection_parameters _ _ => exact ⟨rfl, rfl⟩
  | le_gap_adv_timeout => exact ⟨rfl, rfl⟩
  | gatt_server_user_write_request connection characteristic =>
    simp only [handle_gecko_event, dispatch, next_count, next_handle]
    split <;> exact ⟨rfl, rfl⟩
  | mesh_lpn_friendship_established => exact ⟨rfl, rfl⟩
  | mesh_lpn_friendship_failed => exact ⟨rfl, rfl⟩
  | mesh_lpn_friendship_terminated =>
    simp only [handle_gecko_event, dispatch, next_count, next_handle]
    split <;> exact ⟨rfl, rfl⟩
  | unmatched _ => exact ⟨rfl, rfl⟩

/-- What one event does to `boot_to_dfu`: an OTA-control write sets it to 1, every other
event leaves it. -/
theorem handle_gecko_event_boot_to_dfu (sdk : Sdk) (env : Env) (ρ : Nat → Nat) (e : Event)
    (g : Globals) :
    (handle_gecko_event sdk env ρ (some e) g).1.boot_to_dfu =
      if e.isOtaWrite sdk then 1 else g.boot_to_dfu := by
  cases e with
  | system_boot =>
    show (handle_gecko_event sdk env ρ (some _) g).1.boot_to_dfu = g.boot_to_dfu
    simp only [handle_gecko_event, dispatch]
    split
    · rw [initiate_factory_reset_globals]
    · rfl
  | hardware_soft_timer handle =>
    show (handle_gecko_event sdk env ρ (some _) g).1.boot_to_dfu = g.boot_to_dfu
    simp only [handle_gecko_event, dispatch]
    split_ifs <;> rfl
  | mesh_node_initialized provisioned address ivi =>
    show (handle_gecko_event sdk env ρ (some _) g).1.boot_to_dfu = g.boot_to_dfu
    simp only [handle_gecko_event, dispatch]
    split
    · obtain ⟨_, _, h3, _, _⟩ := lpn_init_frame ρ (switch_node_init ρ
        { g := { g with _my_address := address % 2 ^ 16, _elem_index := 0 },
          out := [Cmd.mesh_generic_client_init, Cmd.mesh_scene_client_init 0] })
      exact h3
    · rfl
  | system_external_signal _ => rfl
  | mesh_node_provisioning_started => rfl
  | mesh_node_provisioned _ => rfl
  | mesh_node_provisioning_failed _ => rfl
  | le_connection_opened connection =>
    show (handle_gecko_event sdk env ρ (some _) g).1.boot_to_dfu = g.boot_to_dfu
    simp only [handle_gecko_event, dispatch]
    rw [lpn_deinit_globals]
  | le_connection_closed reason =>
    show (handle_gecko_event sdk env ρ (some _) g).1.boot_to_dfu = g.boot_to_dfu
    by_cases hd : g.boot_to_dfu = 0
    · rcases closed_globals sdk env ρ reason g hd with h | ⟨_, _, h⟩ <;> rw [h]
    · rw [closed_dfu sdk env ρ reason g hd]
  | mesh_node_reset =>
    show (handle_gecko_event sdk env ρ (some _) g).1.boot_to_dfu = g.boot_to_dfu
    simp only [handle_gecko_event, dispatch]
    rw [initiate_factory_reset_globals]
  | le_connection_parameters _ _ => rfl
  | le_gap_adv_timeout => rfl
  | gatt_server_user_write_request connection characteristic =>
    by_cases hc : characteristic = sdk.gattdb_ota_control
    · simp [handle_gecko_event, dispatch, Event.isOtaWrite, hc, gecko_cmd]
    · simp [handle_gecko_event, dispatch, Event.isOtaWrite, hc]
  | mesh_lpn_friendship_established => rfl
  | mesh_lpn_friendship_failed => rfl
  | mesh_lpn_friendship_terminated =>
    show (handle_gecko_event sdk env ρ (some _) g).1.boot_to_dfu = g.boot_to_dfu
    simp only [handle_gecko_event, dispatch]
    split <;> rfl
  | unmatched _ => rfl

/-- After a sequence of events `boot_to_dfu` is non-zero exactly when it was so at the start
or one of the events was an OTA-control write. -/
theorem run_boot_to_dfu (sdk : Sdk) (ins : List Input) :
    ∀ g : Globals, ((run sdk g ins).boot_to_dfu ≠ 0 ↔
      (g.boot_to_dfu ≠ 0 ∨ ∃ i ∈ ins, i.evt.isOtaWrite sdk = true)) := by
  induction ins with
  | nil => intro g; simp [run]
  | cons i is ih =>
    intro g
    simp only [run]
    rw [ih, handle_gecko_event_boot_to_dfu]
    by_cases hi : i.evt.isOtaWrite sdk = true
    · simp [hi]
    · simp [hi]

/-- A sequence of events that holds no OTA-control write leaves `boot_to_dfu` at 0. -/
theorem run_boot_to_dfu_zero (sdk : Sdk) (ins : List Input) (g : Globals)
    (hg : g.boot_to_dfu = 0) (hno : ∀ i ∈ ins, i.evt.isOtaWrite sdk = false) :
    (run sdk g ins).boot_to_dfu = 0 := by
  by_contra h
  rcases (run_boot_to_dfu sdk ins g).1 h with h1 | ⟨i, hi, ho⟩
  · exact h1 hg
  · rw [hno i hi] at ho
    exact Bool.false_ne_true ho

/-- Every reachable state satisfies `LpnInv`, from any start that does. -/
theorem run_LpnInv (sdk : Sdk) (ins : List Input) :
    ∀ g : Globals, LpnInv g → LpnInv (run sdk g ins) := by
  induction ins with
  | nil => intro g hg; exact hg
  | cons i is ih =>
    intro g hg
    exact ih _ (handle_gecko_event_LpnInv sdk i.env i.ρ i.evt g hg)

/-- The spec's count grows by at most one per event. -/
theorem foldl_spec_count_le (evs : List Event) :
    ∀ n : Nat, evs.foldl spec_count_step n ≤ n + evs.length := by
  induction evs with
  | nil => intro n; simp
  | cons e es ih =>
    intro n
    have h := ih (spec_count_step n e)
    have hs : spec_count_step n e ≤ n + 1 := by
      cases e <;> simp only [spec_count_step] <;> omega
    simp only [List.foldl_cons, List.length_cons]
    omega

/-- The spec's count of a prefix is at most the length of the whole sequence. -/
theorem spec_active_count_take_le (evs : List Event) (k : Nat) :
    spec_active_count (evs.take k) ≤ evs.length := by
  have h := foldl_spec_count_le (evs.take k) 0
  have hl : (evs.take k).length ≤ evs.length := by
    rw [List.length_take]; exact Nat.min_le_right _ _
  unfold spec_active_count
  omega

/-- With no DFU reset pending and no OTA-control write among the events, while the spec's
running count stays within a `uint8_t`, `num_connections` follows it, and the handle is the
sentinel whenever the count is 0. -/
theorem run_connection (sdk : Sdk) (ins : List Input) :
    ∀ (g : Globals) (n : Nat), g.boot_to_dfu = 0 → g.num_connections = n →
      (g.num_connections = 0 → g.conn_handle = 0xFF) →
      (∀ i ∈ ins, i.evt.isOtaWrite sdk = false) →
      (∀ k, ((ins.map Input.evt).take k).foldl spec_count_step n ≤ 255) →
      (run sdk g ins).num_connections = (ins.map Input.evt).foldl spec_count_step n ∧
      ((run sdk g ins).num_connections = 0 → (run sdk g ins).conn_handle = 0xFF) := by
  induction ins with
  | nil =>
    intro g n _ hn hh _ _
    exact ⟨by simpa [run] using hn, by simpa [run] using hh⟩
  | cons i is ih =>
    intro g n hd hn hh hno hb
    obtain ⟨h1, h2⟩ := handle_gecko_event_connection sdk i.env i.ρ i.evt g (Or.inl hd)
    have hd2 : (handle_gecko_event sdk i.env i.ρ (some i.evt) g).1.boot_to_dfu = 0 := by
      rw [handle_gecko_event_boot_to_dfu, hno i (List.mem_cons_self _ _)]
      simpa using hd
    have hno2 : ∀ j ∈ is, j.evt.isOtaWrite sdk = false :=
      fun j hj => hno j (List.mem_cons_of_mem _ hj)
    have hb1 : spec_count_step n i.evt ≤ 255 := by
      have := hb 1
      simpa using this
    have hstep : next_count g.num_connections i.evt = spec_count_step n i.evt := by
      rw [hn]
      cases hev : i.evt <;> simp only [next_count, spec_count_step]
      rw [hev] at hb1
      simp only [spec_count_step] at hb1
      omega
    have hnum : (handle_gecko_event sdk i.env i.ρ (some i.evt) g).1.num_connections =
        spec_count_step n i.evt := by rw [h1, hstep]
    have hinv : (handle_gecko_event sdk i.env i.ρ (some i.evt) g).1.num_connections = 0 →
        (handle_gecko_event sdk i.env i.ρ (some i.evt) g).1.conn_handle = 0xFF := by
      rw [hnum, h2]
      cases hev : i.evt <;> simp only [next_handle, spec_count_step]
      all_goals first
        | (intro h0; exact hh (hn.trans h0))
        | (intro h0; omega)
        | (intro _; trivial)
    have hb2 : ∀ k, ((is.map Input.evt).take k).foldl spec_count_step
        (spec_count_step n i.evt) ≤ 255 := by
      intro k
      have := hb (k + 1)
      simpa using this
    have := ih _ _ hd2 hnum hinv hno2 hb2
    simpa [run] using this

/-- C1: from the initial globals, after any finite sequence of events and whatever result
codes the commands return, `lpn_active != 0` implies `num_connections = 0`. -/
theorem lpn_active_implies_no_connection (sdk : Sdk) (ins : List Input)
    (h : (run sdk Globals.initial ins).lpn_active ≠ 0) :
    (run sdk Globals.initial ins).num_connections = 0 :=
  run_LpnInv sdk ins Globals.initial (fun _ => rfl) h

/-- C1, instance: after node-initialized (provisioned) the LPN feature is active, and no
connection is open. -/
theorem lpn_active_implies_no_connection_witness :
    (run sample_sdk Globals.initial
      [ok_input (Event.mesh_node_initialized 1 0x0034 0)]).lpn_active ≠ 0 ∧
    (run sample_sdk Globals.initial
      [ok_input (Event.mesh_node_initialized 1 0x0034 0)]).num_connections = 0 :=
  ⟨by decide, lpn_active_implies_no_connection sample_sdk
    [ok_input (Event.mesh_node_initialized 1 0x0034 0)] (by decide)⟩

/-- C2 (amended): from the initial globals (`num_connections = 0`, `boot_to_dfu = 0`), for
every finite sequence of events that holds no OTA-control write (so for every sequence of
connection-opened and connection-closed events) and whose running count of opens minus
closes (clamped at 0) never exceeds 255, `num_connections` after the sequence equals that
count. -/
theorem num_connections_eq_spec_count (sdk : Sdk) (ins : List Input)
    (hno : ∀ i ∈ ins, i.evt.isOtaWrite sdk = false)
    (hb : ∀ k, spec_active_count ((ins.map Input.evt).take k) ≤ 255) :
    (run sdk Globals.initial ins).num_connections = spec_active_count (ins.map Input.evt) :=
  (run_connection sdk ins Globals.initial 0 rfl rfl (fun _ => rfl) hno hb).1

/-- C2 (amended), instance: open, close, close, open leaves one connection. -/
theorem num_connections_eq_spec_count_witness :
    (run sample_sdk Globals.initial
      [ok_input (Event.le_connection_opened 1), ok_input (Event.le_connection_closed 0),
       ok_input (Event.le_connection_closed 0), ok_input (Event.le_connection_opened 2)]
      ).num_connections = 1 :=
  num_connections_eq_spec_count sample_sdk
    [ok_input (Event.le_connection_opened 1), ok_input (Event.le_connection_closed 0),
     ok_input (Event.le_connection_closed 0), ok_input (Event.le_connection_opened 2)]
    (by decide) (fun k => le_trans (spec_active_count_take_le _ k) (by decide))

/-- After `k` further connection-opened events the counter has advanced by `k` modulo 256. -/
theorem run_replicate_opened (sdk : Sdk) (i : Input) (c : Nat)
    (hi : i.evt = Event.le_connection_opened c) (k : Nat) :
    ∀ g : Globals, g.num_connections < 256 →
      (run sdk g (List.replicate k i)).num_connections = (g.num_connections + k) % 256 := by
  induction k with
  | zero =>
    intro g hg
    simp only [List.replicate_zero, run, Nat.add_zero]
    omega
  | succ k ih =>
    intro g _
    obtain ⟨h1, _⟩ := handle_gecko_event_connection sdk i.env i.ρ i.evt g
      (Or.inr (fun r hr => by rw [hi] at hr; exact Event.noConfusion hr))
    simp only [hi, next_count] at h1
    simp only [List.replicate_succ, run]
    rw [ih _ (by rw [hi, h1]; omega), hi, h1]
    omega

/-- The spec's count after `k` further connection-opened events. -/
theorem foldl_spec_count_replicate_opened (c k : Nat) :
    ∀ n : Nat, (List.replicate k (Event.le_connection_opened c)).foldl spec_count_step n =
      n + k := by
  induction k with
  | zero => intro n; rfl
  | succ k ih =>
    intro n
    simp only [List.replicate_succ, List.foldl_cons, spec_count_step]
    rw [ih]
    omega

/-- C2, counterexample: after 256 connection-opened events the `uint8_t` counter has wrapped
to 0, while opens minus closes is 256. -/
theorem num_connections_wraps :
    (run sample_sdk Globals.initial
      (List.replicate 256 (ok_input (Event.le_connection_opened 1)))).num_connections ≠
    spec_active_count ((List.replicate 256 (ok_input (Event.le_connection_opened 1))).map
      Input.evt) := by
  have h1 : (run sample_sdk Globals.initial
      (List.replicate 256 (ok_input (Event.le_connection_opened 1)))).num_connections = 0 := by
    rw [run_replicate_opened sample_sdk _ 1 rfl 256 _ (by decide)]
    rfl
  have h2 : spec_active_count ((List.replicate 256
      (ok_input (Event.le_connection_opened 1))).map Input.evt) = 256 := by
    rw [List.map_replicate]
    exact foldl_spec_count_replicate_opened 1 256 0
  rw [h1, h2]
  decide

/-- At the state of the C3 counterexample one connection is still counted, yet a node-reset
event issues no connection-close command: `initiate_factory_reset` decides by
`conn_handle`, which the close has reset to 0xFF. -/
theorem factory_reset_skips_counted_connection :
    (run sample_sdk Globals.initial
      [ok_input (Event.le_connection_opened 1), ok_input (Event.le_connection_opened 2),
       ok_input (Event.le_connection_closed 0)]).num_connections = 1 ∧
    (handle_gecko_event sample_sdk sample_env all_ok (some Event.mesh_node_reset)
      (run sample_sdk Globals.initial
        [ok_input (Event.le_connection_opened 1), ok_input (Event.le_connection_opened 2),
         ok_input (Event.le_connection_closed 0)])).2 =
      [Cmd.flash_ps_erase_all, Cmd.hardware_set_soft_timer 65536 77 1] := by
  decide

/-- A connection-opened event that carries the handle 0xFF leaves `conn_handle` equal to the
sentinel with one connection counted: a `uint8_t` handle has no value left for "none". -/
theorem sentinel_handle_opened :
    (run sample_sdk Globals.initial
      [ok_input (Event.le_connection_opened 0xFF)]).conn_handle = 0xFF ∧
    (run sample_sdk Globals.initial
      [ok_input (Event.le_connection_opened 0xFF)]).num_connections = 1 := by
  decide

/-- C4: from a state with no connection, LPN active and no pending DFU, with every command
succeeding, connection-opened issues the three LPN-leave commands, the following
connection-closed issues the four LPN-enter commands, the state then has `lpn_active = 1`
and `num_connections = 0`, and one more connection-closed issues nothing and changes
nothing. -/
theorem open_then_close_leaves_then_enters (sdk : Sdk) (env1 env2 env3 : Env)
    (connection reason reason2 : Nat) (g : Globals)
    (hn : g.num_connections = 0) (hl : g.lpn_active = 1) (hd : g.boot_to_dfu = 0) :
    (handle_gecko_event sdk env1 all_ok (some (Event.le_connection_opened connection)) g).2 =
      [Cmd.hardware_set_soft_timer TIMER_STOP TIMER_ID_FRIEND_FIND 1,
       Cmd.mesh_lpn_terminate_friendship, Cmd.mesh_lpn_deinit] ∧
    (handle_gecko_event sdk env2 all_ok (some (Event.le_connection_closed reason))
      (handle_gecko_event sdk env1 all_ok
        (some (Event.le_connection_opened connection)) g).1).2 =
      [Cmd.mesh_lpn_init, Cmd.mesh_lpn_config LpnSetting.mesh_lpn_queue_length 2,
       Cmd.mesh_lpn_config LpnSetting.mesh_lpn_poll_timeout 5000,
       Cmd.mesh_lpn_establish_friendship 0] ∧
    (handle_gecko_event sdk env2 all_ok (some (Event.le_connection_closed reason))
      (handle_gecko_event sdk env1 all_ok
        (some (Event.le_connection_opened connection)) g).1).1.lpn_active = 1 ∧
    (handle_gecko_event sdk env2 all_ok (some (Event.le_connection_closed reason))
      (handle_gecko_event sdk env1 all_ok
        (some (Event.le_connection_opened connection)) g).1).1.num_connections = 0 ∧
    handle_gecko_event sdk env3 all_ok (some (Event.le_connection_closed reason2))
      (handle_gecko_event sdk env2 all_ok (some (Event.le_connection_closed reason))
        (handle_gecko_event sdk env1 all_ok
          (some (Event.le_connection_opened connection)) g).1).1 =
      ((handle_gecko_event sdk env2 all_ok (some (Event.le_connection_closed reason))
        (handle_gecko_event sdk env1 all_ok
          (some (Event.le_connection_opened connection)) g).1).1, []) := by
  obtain ⟨dfu, ei, ma, nc, ch, la⟩ := g
  simp only at hn hl hd
  subst hn hl hd
  simp [handle_gecko_event, dispatch, lpn_deinit, lpn_init, gecko_cmd, all_ok]

/-- C4, instance: the state reached by node-initialized (provisioned) from the initial
globals. -/
theorem open_then_close_leaves_then_enters_witness :
    (handle_gecko_event sample_sdk sample_env all_ok (some (Event.le_connection_closed 0))
      (handle_gecko_event sample_sdk sample_env all_ok (some (Event.le_connection_opened 1))
        (run sample_sdk Globals.initial
          [ok_input (Event.mesh_node_initialized 1 0x0034 0)])).1).2 =
      [Cmd.mesh_lpn_init, Cmd.mesh_lpn_config LpnSetting.mesh_lpn_queue_length 2,
       Cmd.mesh_lpn_config LpnSetting.mesh_lpn_poll_timeout 5000,
       Cmd.mesh_lpn_establish_friendship 0] :=
  (open_then_close_leaves_then_enters sample_sdk sample_env sample_env sample_env 1 0 0
    (run sample_sdk Globals.initial [ok_input (Event.mesh_node_initialized 1 0x0034 0)])
    (by decide) (by decide) (by decide)).2.1

/-- `lpn_init` appends a prefix of `lpn_enter_cmds` to the commands issued so far. -/
theorem lpn_init_out (ρ : Nat → Nat) (x : Exec) :
    ∃ l, (lpn_init ρ x).out = x.out ++ l ∧ l <+: lpn_enter_cmds := by
  unfold lpn_init gecko_cmd lpn_enter_cmds
  split
  · exact ⟨[], by simp, List.nil_prefix⟩
  · simp only
    split
    · exact ⟨[Cmd.mesh_lpn_init], rfl, by decide⟩
    · split
      · exact ⟨[Cmd.mesh_lpn_init, Cmd.mesh_lpn_config LpnSetting.mesh_lpn_queue_length 2],
          by simp, by decide⟩
      · split
        · exact ⟨[Cmd.mesh_lpn_init, Cmd.mesh_lpn_config LpnSetting.mesh_lpn_queue_length 2,
            Cmd.mesh_lpn_config LpnSetting.mesh_lpn_poll_timeout 5000], by simp, by decide⟩
        · exact ⟨_, by simp, List.prefix_refl _⟩

/-- `closed_tail` appends a prefix of `lpn_enter_cmds` to the commands issued so far. -/
theorem closed_tail_out (ρ : Nat → Nat) (x : Exec) :
    ∃ l, (closed_tail ρ x).out = x.out ++ l ∧ l <+: lpn_enter_cmds := by
  unfold closed_tail
  simp only
  split
  · split
    · exact lpn_init_out ρ _
    · exact ⟨[], by simp, List.nil_prefix⟩
  · exact ⟨[], by simp, List.nil_prefix⟩

/-- C5: with `boot_to_dfu != 0` a connection-closed event issues `system_reset(2)` and
nothing else, and changes no global: `num_connections` is not decremented and no LPN
command is issued. With `boot_to_dfu = 0` no reset is issued, `conn_handle` becomes 0xFF,
`num_connections` is decremented unless it is 0, and when the last connection closes
with LPN off the commands are those of `lpn_init`, the LPN init command first. -/
theorem closed_with_dfu_resets (sdk : Sdk) (env : Env) (ρ : Nat → Nat) (reason : Nat)
    (g : Globals) (hd : g.boot_to_dfu ≠ 0) :
    handle_gecko_event sdk env ρ (some (Event.le_connection_closed reason)) g =
      (g, [Cmd.system_reset 2]) ∧
    (handle_gecko_event sdk env ρ (some (Event.le_connection_closed reason))
      g).1.num_connections = g.num_connections ∧
    (∀ c ∈ (handle_gecko_event sdk env ρ (some (Event.le_connection_closed reason)) g).2,
      c.isLpn = false) ∧
    (∀ m, Cmd.system_reset m ∉
      (handle_gecko_event sdk env ρ (some (Event.le_connection_closed reason))
        { g with boot_to_dfu := 0 }).2) ∧
    (handle_gecko_event sdk env ρ (some (Event.le_connection_closed reason))
      { g with boot_to_dfu := 0 }).1.num_connections = g.num_connections - 1 ∧
    (handle_gecko_event sdk env ρ (some (Event.le_connection_closed reason))
      { g with boot_to_dfu := 0 }).1.conn_handle = 0xFF ∧
    (g.num_connections = 1 → g.lpn_active = 0 →
      handle_gecko_event sdk env ρ (some (Event.le_connection_closed reason))
        { g with boot_to_dfu := 0 } =
      ((lpn_init ρ { g := { g with boot_to_dfu := 0, conn_handle := 0xFF, num_connections := 0 }, out := [] }).g,
       (lpn_init ρ { g := { g with boot_to_dfu := 0, conn_handle := 0xFF, num_connections := 0 }, out := [] }).out) ∧
      (handle_gecko_event sdk env ρ (some (Event.le_connection_closed reason))
        { g with boot_to_dfu := 0 }).2.head? = some Cmd.mesh_lpn_init) ∧
    (g.num_connections ≠ 1 →
      (handle_gecko_event sdk env ρ (some (Event.le_connection_closed reason))
        { g with boot_to_dfu := 0 }).2 = []) := by
  have hdfu := closed_dfu sdk env ρ reason g hd
  obtain ⟨h1, h2⟩ := handle_gecko_event_connection sdk env ρ (Event.le_connection_closed reason)
    { g with boot_to_dfu := 0 } (Or.inl rfl)
  have h0 : handle_gecko_event sdk env ρ (some (Event.le_connection_closed reason))
      { g with boot_to_dfu := 0 } =
      ((closed_tail ρ { g := { g with boot_to_dfu := 0 }, out := [] }).g,
       (closed_tail ρ { g := { g with boot_to_dfu := 0 }, out := [] }).out) := by
    simp only [handle_gecko_event, dispatch_closed]
    rw [if_neg (by simp)]
  refine ⟨hdfu, ?_, ?_, ?_, h1, h2, ?_, ?_⟩
  · rw [hdfu]
  · intro c hc
    rw [hdfu] at hc
    have hc2 : c = Cmd.system_reset 2 := by simpa using hc
    rw [hc2]
    rfl
  · intro m
    rw [h0]
    obtain ⟨l, hl, hp⟩ := closed_tail_out ρ { g := { g with boot_to_dfu := 0 }, out := [] }
    simp only
    rw [hl]
    intro hm
    have hm2 : Cmd.system_reset m ∈ lpn_enter_cmds := by
      have : Cmd.system_reset m ∈ l := by simpa using hm
      exact hp.subset this
    simp [lpn_enter_cmds] at hm2
  · intro hn hl
    have h3 : handle_gecko_event sdk env ρ (some (Event.le_connection_closed reason))
        { g with boot_to_dfu := 0 } =
        ((lpn_init ρ { g := { g with boot_to_dfu := 0, conn_handle := 0xFF, num_connections := 0 }, out := [] }).g,
         (lpn_init ρ { g := { g with boot_to_dfu := 0, conn_handle := 0xFF, num_connections := 0 }, out := [] }).out) := by
      rw [h0]
      unfold closed_tail
      simp [hn]
    refine ⟨h3, ?_⟩
    rw [h3]
    simp only
    unfold lpn_init gecko_cmd
    simp only [hl]
    split_ifs <;> simp at *
  · intro hn
    rw [h0]
    unfold closed_tail
    simp only
    by_cases hz : g.num_connections = 0
    · simp [hz]
    · have hp : g.num_connections > 0 := by omega
      have hq : ¬ g.num_connections - 1 = 0 := by omega
      simp [hp, hq]

/-- C5, instance: in the state reached by opening connection 3 and writing the OTA-control
characteristic, the close issues only the DFU reset and one connection stays counted. -/
theorem closed_with_dfu_resets_witness :
    (run sample_sdk Globals.initial
      [ok_input (Event.le_connection_opened 3),
       ok_input (Event.gatt_server_user_write_request 3 22)]).boot_to_dfu ≠ 0 ∧
    handle_gecko_event sample_sdk sample_env all_ok (some (Event.le_connection_closed 0))
      (run sample_sdk Globals.initial
        [ok_input (Event.le_connection_opened 3),
         ok_input (Event.gatt_server_user_write_request 3 22)]) =
      ({ Globals.initial with boot_to_dfu := 1, num_connections := 1, conn_handle := 3 },
       [Cmd.system_reset 2]) :=
  ⟨by decide, (closed_with_dfu_resets sample_sdk sample_env all_ok 0
    (run sample_sdk Globals.initial
      [ok_input (Event.le_connection_opened 3),
       ok_input (Event.gatt_server_user_write_request 3 22)]) (by decide)).1.trans
    (by decide)⟩

/-- C6, the code at the scenario of the claim: after boot (no button held), node-initialized
(unprovisioned), provisioning-started and provisioned(0x0012), `_elem_index` is 0 but
`_my_address` is still 0, not 0x0012: the provisioned case never stores the address. -/
theorem provisioned_event_drops_address :
    (run sample_sdk Globals.initial
      [ok_input Event.system_boot, ok_input (Event.mesh_node_initialized 0 0 0),
       ok_input Event.mesh_node_provisioning_started,
       ok_input (Event.mesh_node_provisioned 0x0012)])._elem_index = 0 ∧
    (run sample_sdk Globals.initial
      [ok_input Event.system_boot, ok_input (Event.mesh_node_initialized 0 0 0),
       ok_input Event.mesh_node_provisioning_started,
       ok_input (Event.mesh_node_provisioned 0x0012)])._my_address = 0 := by
  decide

/-- C7: node-initialized with the provisioned flag set and a 16-bit address `a` stores
`_my_address = a` and `_elem_index = 0`, issues generic-client init, scene-client init
and the mesh-lib init, then runs `lpn_init` once on the resulting state (its commands are
all that follows); with `lpn_active = 0` and `num_connections = 0` exactly one LPN init
command is issued, and no start-unprovisioned-beaconing command is issued. -/
theorem node_initialized_provisioned (sdk : Sdk) (env : Env) (ρ : Nat → Nat)
    (provisioned a ivi : Nat) (g : Globals) (hp : provisioned ≠ 0) (ha : a < 2 ^ 16) :
    (handle_gecko_event sdk env ρ (some (Event.mesh_node_initialized provisioned a ivi))
      g).1._my_address = a ∧
    (handle_gecko_event sdk env ρ (some (Event.mesh_node_initialized provisioned a ivi))
      g).1._elem_index = 0 ∧
    handle_gecko_event sdk env ρ (some (Event.mesh_node_initialized provisioned a ivi)) g =
      ((lpn_init ρ { g := { g with _my_address := a, _elem_index := 0 },
                     out := [Cmd.mesh_generic_client_init, Cmd.mesh_scene_client_init 0,
                       Cmd.mesh_lib_init 8] }).g,
       (lpn_init ρ { g := { g with _my_address := a, _elem_index := 0 },
                     out := [Cmd.mesh_generic_client_init, Cmd.mesh_scene_client_init 0,
                       Cmd.mesh_lib_init 8] }).out) ∧
    (∃ l, (handle_gecko_event sdk env ρ
        (some (Event.mesh_node_initialized provisioned a ivi)) g).2 =
      [Cmd.mesh_generic_client_init, Cmd.mesh_scene_client_init 0, Cmd.mesh_lib_init 8] ++ l ∧
      l <+: lpn_enter_cmds) ∧
    (g.lpn_active = 0 → g.num_connections = 0 →
      (handle_gecko_event sdk env ρ (some (Event.mesh_node_initialized provisioned a ivi))
        g).2.count Cmd.mesh_lpn_init = 1) ∧
    (∀ bearer, Cmd.mesh_node_start_unprov_beaconing bearer ∉
      (handle_gecko_event sdk env ρ (some (Event.mesh_node_initialized provisioned a ivi))
        g).2) := by
  have ha2 : a % 2 ^ 16 = a := Nat.mod_eq_of_lt ha
  have heq : handle_gecko_event sdk env ρ
      (some (Event.mesh_node_initialized provisioned a ivi)) g =
      ((lpn_init ρ { g := { g with _my_address := a, _elem_index := 0 },
                     out := [Cmd.mesh_generic_client_init, Cmd.mesh_scene_client_init 0,
                       Cmd.mesh_lib_init 8] }).g,
       (lpn_init ρ { g := { g with _my_address := a, _elem_index := 0 },
                     out := [Cmd.mesh_generic_client_init, Cmd.mesh_scene_client_init 0,
                       Cmd.mesh_lib_init 8] }).out) := by
    simp only [handle_gecko_event, dispatch]
    rw [if_pos hp]
    simp only [switch_node_init, gecko_cmd, List.nil_append, List.cons_append, ha2]
  obtain ⟨_, _, _, hei, hma⟩ := lpn_init_frame ρ
    { g := { g with _my_address := a, _elem_index := 0 },
      out := [Cmd.mesh_generic_client_init, Cmd.mesh_scene_client_init 0, Cmd.mesh_lib_init 8] }
  obtain ⟨l, hl, hpre⟩ := lpn_init_out ρ
    { g := { g with _my_address := a, _elem_index := 0 },
      out := [Cmd.mesh_generic_client_init, Cmd.mesh_scene_client_init 0, Cmd.mesh_lib_init 8] }
  refine ⟨?_, ?_, heq, ⟨l, ?_, hpre⟩, ?_, ?_⟩
  · rw [heq]; exact hma
  · rw [heq]; exact hei
  · rw [heq]; exact hl
  · intro h1 h2
    rw [heq]
    simp only
    unfold lpn_init gecko_cmd
    simp only [h1, h2]
    split_ifs <;> simp at *
  · intro bearer
    rw [heq]
    simp only
    rw [hl]
    intro hm
    have hm2 : Cmd.mesh_node_start_unprov_beaconing bearer ∈ lpn_enter_cmds := by
      have : Cmd.mesh_node_start_unprov_beaconing bearer ∈ l := by simpa using hm
      exact hpre.subset this
    simp [lpn_enter_cmds] at hm2

/-- C7, instance: node-initialized(provisioned, address 0x0034) from the initial globals. -/
theorem node_initialized_provisioned_witness :
    handle_gecko_event sample_sdk sample_env all_ok
      (some (Event.mesh_node_initialized 1 0x0034 0)) Globals.initial =
    ({ Globals.initial with _my_address := 0x0034, _elem_index := 0, lpn_active := 1 },
     [Cmd.mesh_generic_client_init, Cmd.mesh_scene_client_init 0, Cmd.mesh_lib_init 8,
      Cmd.mesh_lpn_init, Cmd.mesh_lpn_config LpnSetting.mesh_lpn_queue_length 2,
      Cmd.mesh_lpn_config LpnSetting.mesh_lpn_poll_timeout 5000,
      Cmd.mesh_lpn_establish_friendship 0]) :=
  (node_initialized_provisioned sample_sdk sample_env all_ok 1 0x0034 0 Globals.initial
    (by decide) (by decide)).2.2.1.trans (by decide)

/-- C8: boot with PB0 or PB1 held (reading 0) leaves the globals alone and issues exactly:
connection-close on `conn_handle` iff `conn_handle != 0xFF`, flash erase-all, and
`set_soft_timer(65536, TIMER_ID_FACTORY_RESET, single-shot)`; hence no get-bt-address, no
GATT attribute write and no mesh-node-init command. -/
theorem boot_with_button_held (sdk : Sdk) (env : Env) (ρ : Nat → Nat) (g : Globals)
    (hb : env.GPIO_PinInGet Button_port Button_pin = 0 ∨
      env.GPIO_PinInGet Button_port Button1 = 0) :
    handle_gecko_event sdk env ρ (some Event.system_boot) g =
      (g, (if g.conn_handle ≠ 0xFF then [Cmd.le_connection_close g.conn_handle] else []) ++
        [Cmd.flash_ps_erase_all,
         Cmd.hardware_set_soft_timer 65536 TIMER_ID_FACTORY_RESET 1]) ∧
    Cmd.system_get_bt_address ∉ (handle_gecko_event sdk env ρ (some Event.system_boot) g).2 ∧
    Cmd.mesh_node_init ∉ (handle_gecko_event sdk env ρ (some Event.system_boot) g).2 ∧
    (∀ attr offset len value, Cmd.gatt_server_write_attribute_value attr offset len value ∉
      (handle_gecko_event sdk env ρ (some Event.system_boot) g).2) := by
  have heq : handle_gecko_event sdk env ρ (some Event.system_boot) g =
      (g, (if g.conn_handle ≠ 0xFF then [Cmd.le_connection_close g.conn_handle] else []) ++
        [Cmd.flash_ps_erase_all,
         Cmd.hardware_set_soft_timer 65536 TIMER_ID_FACTORY_RESET 1]) := by
    simp only [handle_gecko_event, dispatch]
    rw [if_pos hb]
    unfold initiate_factory_reset gecko_cmd
    split_ifs <;> rfl
  refine ⟨heq, ?_, ?_, ?_⟩
  · rw [heq]; split_ifs <;> simp
  · rw [heq]; split_ifs <;> simp
  · intro attr offset len value
    rw [heq]; split_ifs <;> simp

/-- C8, instance: boot with PB0 held while connection 3 is open. -/
theorem boot_with_button_held_witness :
    handle_gecko_event sample_sdk sample_env_pb0 all_ok (some Event.system_boot)
      (run sample_sdk Globals.initial [ok_input (Event.le_connection_opened 3)]) =
    (run sample_sdk Globals.initial [ok_input (Event.le_connection_opened 3)],
     [Cmd.le_connection_close 3, Cmd.flash_ps_erase_all,
      Cmd.hardware_set_soft_timer 65536 77 1]) :=
  (boot_with_button_held sample_sdk sample_env_pb0 all_ok
    (run sample_sdk Globals.initial [ok_input (Event.le_connection_opened 3)])
    (Or.inl (by decide))).1.trans (by decide)

/-- C9: a friendship-terminated event changes no global and issues exactly
`set_soft_timer(TIMER_MS_2_TIMERTICK(2000) = 65536, TIMER_ID_FRIEND_FIND, single-shot)`
when `num_connections = 0`, and nothing when `num_connections > 0`. -/
theorem friendship_terminated_retry (sdk : Sdk) (env : Env) (ρ : Nat → Nat) (g : Globals) :
    handle_gecko_event sdk env ρ (some Event.mesh_lpn_friendship_terminated) g =
      (g, if g.num_connections = 0
        then [Cmd.hardware_set_soft_timer 65536 TIMER_ID_FRIEND_FIND 1] else []) ∧
    TIMER_MS_2_TIMERTICK 2000 = 65536 ∧ (32768 * 2000) / 1000 = 65536 ∧
    TIMER_ID_FRIEND_FIND = 20 := by
  refine ⟨?_, by decide, by decide, rfl⟩
  simp only [handle_gecko_event, dispatch, gecko_cmd]
  split_ifs <;> rfl

/-- C10: a provisioning-failed event changes no global and issues exactly one command,
`set_soft_timer(2 * 32768 = 65536, TIMER_ID_RESTART, single-shot)`. -/
theorem provisioning_failed_schedules_restart (sdk : Sdk) (env : Env) (ρ : Nat → Nat)
    (result : Nat) (g : Globals) :
    handle_gecko_event sdk env ρ (some (Event.mesh_node_provisioning_failed result)) g =
      (g, [Cmd.hardware_set_soft_timer 65536 TIMER_ID_RESTART 1]) ∧
    TIMER_ID_RESTART = 78 := by
  exact ⟨rfl, rfl⟩

/-- C11: `lpn_init` leaves `lpn_active != 0` exactly when it was already `!= 0`, or
`num_connections = 0` and the LPN init command, issued first, returned 0. Entered with
`lpn_active != 0` or `num_connections > 0` it issues nothing and changes nothing. Entered
with both 0 it issues the LPN init command; if that fails nothing else is issued and no
global changes; if it succeeds `lpn_active` becomes 1 and no other global changes,
whatever the later commands return, and the commands that follow are the queue-length
config (2), then, if that succeeded, the poll-timeout config (5000), then, if that
succeeded, establish-friendship(0). -/
theorem lpn_init_activation (ρ : Nat → Nat) (x : Exec) :
    ((lpn_init ρ x).g.lpn_active ≠ 0 ↔
      (x.g.lpn_active ≠ 0 ∨
        (x.g.num_connections = 0 ∧ (gecko_cmd ρ Cmd.mesh_lpn_init x).1 = 0))) ∧
    gecko_cmd ρ Cmd.mesh_lpn_init x =
      (ρ x.out.length, { x with out := x.out ++ [Cmd.mesh_lpn_init] }) ∧
    ((x.g.lpn_active ≠ 0 ∨ x.g.num_connections > 0) → lpn_init ρ x = x) ∧
    (x.g.lpn_active = 0 → x.g.num_connections = 0 → ρ x.out.length ≠ 0 →
      lpn_init ρ x = { x with out := x.out ++ [Cmd.mesh_lpn_init] }) ∧
    (x.g.lpn_active = 0 → x.g.num_connections = 0 → ρ x.out.length = 0 →
      (lpn_init ρ x).g = { x.g with lpn_active := 1 } ∧
      (ρ (x.out.length + 1) ≠ 0 →
        (lpn_init ρ x).out = x.out ++ [Cmd.mesh_lpn_init,
          Cmd.mesh_lpn_config LpnSetting.mesh_lpn_queue_length 2]) ∧
      (ρ (x.out.length + 1) = 0 → ρ (x.out.length + 2) ≠ 0 →
        (lpn_init ρ x).out = x.out ++ [Cmd.mesh_lpn_init,
          Cmd.mesh_lpn_config LpnSetting.mesh_lpn_queue_length 2,
          Cmd.mesh_lpn_config LpnSetting.mesh_lpn_poll_timeout 5000]) ∧
      (ρ (x.out.length + 1) = 0 → ρ (x.out.length + 2) = 0 →
        (lpn_init ρ x).out = x.out ++ [Cmd.mesh_lpn_init,
          Cmd.mesh_lpn_config LpnSetting.mesh_lpn_queue_length 2,
          Cmd.mesh_lpn_config LpnSetting.mesh_lpn_poll_timeout 5000,
          Cmd.mesh_lpn_establish_friendship 0])) := by
  obtain ⟨g, out⟩ := x
  obtain ⟨dfu, ei, ma, nc, ch, la⟩ := g
  refine ⟨?_, rfl, ?_, ?_, ?_⟩
  · unfold lpn_init gecko_cmd
    simp only
    by_cases hla : la = 0
    · by_cases hnc : nc = 0
      · by_cases hr : ρ out.length = 0
        · subst hla hnc
          simp only [hr]
          split_ifs <;> simp_all
        · subst hla hnc
          simp [hr]
      · simp [hla, hnc]
    · simp [hla]
  · intro h
    unfold lpn_init
    simp only at h ⊢
    have h2 : la ≠ 0 ∨ nc ≠ 0 := by
      rcases h with h | h
      · exact Or.inl h
      · exact Or.inr (by omega)
    rw [if_pos h2]
  · intro hla hnc hr
    simp only at hla hnc hr
    subst hla hnc
    unfold lpn_init gecko_cmd
    simp [hr]
  · intro hla hnc hr
    simp only at hla hnc hr
    subst hla hnc
    refine ⟨?_, ?_, ?_, ?_⟩
    · unfold lpn_init gecko_cmd
      simp only [hr]
      split_ifs <;> simp_all
    · intro h1
      unfold lpn_init gecko_cmd
      simp [hr, h1]
    · intro h1 h2
      unfold lpn_init gecko_cmd
      simp [hr, h1, h2]
    · intro h1 h2
      unfold lpn_init gecko_cmd
      simp [hr, h1, h2]

/-- C11, instance: with LPN off, no connection and the init command succeeding while the
queue-length configuration fails (code 1), `lpn_active` is still set to 1 and the commands
issued are the init and the queue-length configuration. -/
theorem lpn_init_activation_witness :
    (lpn_init (fun k => if k = 1 then 1 else 0) { g := Globals.initial, out := [] }).g =
      { Globals.initial with lpn_active := 1 } ∧
    (lpn_init (fun k => if k = 1 then 1 else 0) { g := Globals.initial, out := [] }).out =
      [Cmd.mesh_lpn_init, Cmd.mesh_lpn_config LpnSetting.mesh_lpn_queue_length 2] :=
  ⟨((lpn_init_activation (fun k => if k = 1 then 1 else 0)
      { g := Globals.initial, out := [] }).2.2.2.2 rfl rfl rfl).1,
   ((lpn_init_activation (fun k => if k = 1 then 1 else 0)
      { g := Globals.initial, out := [] }).2.2.2.2 rfl rfl rfl).2.1 (by decide)⟩

/-- C12: `lpn_deinit` does nothing when `lpn_active = 0`; otherwise it issues, in order,
`set_soft_timer(TIMER_STOP = 0, TIMER_ID_FRIEND_FIND, single-shot)`, terminate-friendship
and LPN deinit, and clears `lpn_active`, whatever the oracle returns, leaving every other
global unchanged. -/
theorem lpn_deinit_effect (ρ : Nat → Nat) (x : Exec) :
    (x.g.lpn_active = 0 → lpn_deinit ρ x = x) ∧
    (x.g.lpn_active ≠ 0 → lpn_deinit ρ x =
      { g := { x.g with lpn_active := 0 },
        out := x.out ++ [Cmd.hardware_set_soft_timer 0 TIMER_ID_FRIEND_FIND 1,
          Cmd.mesh_lpn_terminate_friendship, Cmd.mesh_lpn_deinit] }) ∧
    TIMER_STOP = 0 := by
  refine ⟨?_, ?_, rfl⟩
  · intro h
    unfold lpn_deinit
    rw [if_pos h]
  · intro h
    unfold lpn_deinit gecko_cmd
    rw [if_neg h]
    simp [TIMER_STOP]

/-- C12, instance: `lpn_deinit` with every command failing (code 7), in the state reached by
node-initialized (provisioned): the three commands are issued and the flag is cleared. -/
theorem lpn_deinit_effect_witness :
    lpn_deinit (fun _ => 7)
      { g := run sample_sdk Globals.initial [ok_input (Event.mesh_node_initialized 1 0x0034 0)],
        out := [] } =
    { g := { Globals.initial with _my_address := 0x0034, _elem_index := 0 },
      out := [Cmd.hardware_set_soft_timer 0 20 1, Cmd.mesh_lpn_terminate_friendship,
        Cmd.mesh_lpn_deinit] } :=
  ((lpn_deinit_effect (fun _ => 7)
    { g := run sample_sdk Globals.initial [ok_input (Event.mesh_node_initialized 1 0x0034 0)],
      out := [] }).2.1 (by decide)).trans (by decide)

/-- What `initiate_factory_reset` appends to the commands issued so far. -/
theorem initiate_factory_reset_out (ρ : Nat → Nat) (x : Exec) :
    (initiate_factory_reset ρ x).out =
      x.out ++ ((if x.g.conn_handle ≠ 0xFF then [Cmd.le_connection_close x.g.conn_handle]
        else []) ++ [Cmd.flash_ps_erase_all,
          Cmd.hardware_set_soft_timer 65536 TIMER_ID_FACTORY_RESET 1]) := by
  unfold initiate_factory_reset gecko_cmd
  split_ifs <;> simp

/-- C13: `initiate_factory_reset` changes no global and appends connection-close on
`conn_handle` (iff `conn_handle != 0xFF`), flash erase-all and
`set_soft_timer(65536, TIMER_ID_FACTORY_RESET, single-shot)`; called twice in a row it
appends that sequence twice and still changes no global; the sequence holds no
system-reset command; and the node-reset event issues just that sequence. -/
theorem initiate_factory_reset_idempotent (sdk : Sdk) (env : Env) (ρ1 ρ2 : Nat → Nat)
    (x : Exec) :
    (initiate_factory_reset ρ1 x).g = x.g ∧
    (initiate_factory_reset ρ1 x).out =
      x.out ++ ((if x.g.conn_handle ≠ 0xFF then [Cmd.le_connection_close x.g.conn_handle]
        else []) ++ [Cmd.flash_ps_erase_all,
          Cmd.hardware_set_soft_timer 65536 TIMER_ID_FACTORY_RESET 1]) ∧
    (initiate_factory_reset ρ2 (initiate_factory_reset ρ1 x)).g = x.g ∧
    (initiate_factory_reset ρ2 (initiate_factory_reset ρ1 x)).out =
      x.out ++ ((if x.g.conn_handle ≠ 0xFF then [Cmd.le_connection_close x.g.conn_handle]
        else []) ++ [Cmd.flash_ps_erase_all,
          Cmd.hardware_set_soft_timer 65536 TIMER_ID_FACTORY_RESET 1]) ++
        ((if x.g.conn_handle ≠ 0xFF then [Cmd.le_connection_close x.g.conn_handle]
        else []) ++ [Cmd.flash_ps_erase_all,
          Cmd.hardware_set_soft_timer 65536 TIMER_ID_FACTORY_RESET 1]) ∧
    (∀ m, Cmd.system_reset m ∉
      ((if x.g.conn_handle ≠ 0xFF then [Cmd.le_connection_close x.g.conn_handle]
        else []) ++ [Cmd.flash_ps_erase_all,
          Cmd.hardware_set_soft_timer 65536 TIMER_ID_FACTORY_RESET 1])) ∧
    handle_gecko_event sdk env ρ1 (some Event.mesh_node_reset) x.g =
      (x.g, (if x.g.conn_handle ≠ 0xFF then [Cmd.le_connection_close x.g.conn_handle]
        else []) ++ [Cmd.flash_ps_erase_all,
          Cmd.hardware_set_soft_timer 65536 TIMER_ID_FACTORY_RESET 1]) ∧
    TIMER_ID_FACTORY_RESET = 77 := by
  have hg := initiate_factory_reset_globals ρ1 x
  have ho := initiate_factory_reset_out ρ1 x
  refine ⟨hg, ho, ?_, ?_, ?_, ?_, rfl⟩
  · rw [initiate_factory_reset_globals, hg]
  · rw [initiate_factory_reset_out, hg, ho]
  · intro m
    split_ifs <;> simp
  · simp only [handle_gecko_event, dispatch]
    rw [initiate_factory_reset_globals, initiate_factory_reset_out]
    simp

/-- C13, instance: two factory resets in a row while connection 3 is open. -/
theorem initiate_factory_reset_idempotent_witness :
    (initiate_factory_reset all_ok (initiate_factory_reset all_ok
      { g := run sample_sdk Globals.initial [ok_input (Event.le_connection_opened 3)],
        out := [] })).out =
    [Cmd.le_connection_close 3, Cmd.flash_ps_erase_all,
     Cmd.hardware_set_soft_timer 65536 77 1,
     Cmd.le_connection_close 3, Cmd.flash_ps_erase_all,
     Cmd.hardware_set_soft_timer 65536 77 1] :=
  (initiate_factory_reset_idempotent sample_sdk sample_env all_ok all_ok
    { g := run sample_sdk Globals.initial [ok_input (Event.le_connection_opened 3)],
      out := [] }).2.2.2.1.trans (by decide)

/-- The value of `lpn_active` after any event, for the events that cannot change it. -/
theorem handle_gecko_event_lpn_active (sdk : Sdk) (env : Env) (ρ : Nat → Nat) (e : Event)
    (g : Globals) (ho : ∀ c, e ≠ Event.le_connection_opened c)
    (hc : ∀ r, e ≠ Event.le_connection_closed r)
    (hi : ∀ p a v, e = Event.mesh_node_initialized p a v → p = 0) :
    (handle_gecko_event sdk env ρ (some e) g).1.lpn_active = g.lpn_active := by
  cases e with
  | system_boot =>
    simp only [handle_gecko_event, dispatch]
    split
    · rw [initiate_factory_reset_globals]
    · rfl
  | hardware_soft_timer handle =>
    simp only [handle_gecko_event, dispatch]
    split_ifs <;> rfl
  | mesh_node_initialized provisioned address ivi =>
    have hp : provisioned = 0 := hi provisioned address ivi rfl
    subst hp
    rfl
  | system_external_signal _ => rfl
  | mesh_node_provisioning_started => rfl
  | mesh_node_provisioned _ => rfl
  | mesh_node_provisioning_failed _ => rfl
  | le_connection_opened connection => exact absurd rfl (ho connection)
  | le_connection_closed reason => exact absurd rfl (hc reason)
  | mesh_node_reset =>
    simp only [handle_gecko_event, dispatch]
    rw [initiate_factory_reset_globals]
  | le_connection_parameters _ _ => rfl
  | le_gap_adv_timeout => rfl
  | gatt_server_user_write_request connection characteristic =>
    simp only [handle_gecko_event, dispatch]
    split <;> rfl
  | mesh_lpn_friendship_established => rfl
  | mesh_lpn_friendship_failed => rfl
  | mesh_lpn_friendship_terminated =>
    simp only [handle_gecko_event, dispatch]
    split <;> rfl
  | unmatched _ => rfl

/-- C14: in a state reachable from the initial globals, an event that changes `lpn_active`
is a connection-opened event taking `num_connections` from 0 to 1, a connection-closed
event taking it from 1 to 0, or a node-initialized event with the provisioned flag set. -/
theorem lpn_active_changes_only_at_boundaries (sdk : Sdk) (ins : List Input) (env : Env)
    (ρ : Nat → Nat) (e : Event)
    (hch : (handle_gecko_event sdk env ρ (some e) (run sdk Globals.initial ins)).1.lpn_active ≠
      (run sdk Globals.initial ins).lpn_active) :
    (∃ c, e = Event.le_connection_opened c ∧
      (run sdk Globals.initial ins).num_connections = 0 ∧
      (handle_gecko_event sdk env ρ (some e)
        (run sdk Globals.initial ins)).1.num_connections = 1) ∨
    (∃ r, e = Event.le_connection_closed r ∧
      (run sdk Globals.initial ins).num_connections = 1 ∧
      (handle_gecko_event sdk env ρ (some e)
        (run sdk Globals.initial ins)).1.num_connections = 0) ∨
    (∃ p a v, e = Event.mesh_node_initialized p a v ∧ p ≠ 0) := by
  have hinv : LpnInv (run sdk Globals.initial ins) :=
    run_LpnInv sdk ins Globals.initial (fun _ => rfl)
  generalize run sdk Globals.initial ins = s at hch hinv ⊢
  by_cases ho : ∃ c, e = Event.le_connection_opened c
  · obtain ⟨c, rfl⟩ := ho
    left
    refine ⟨c, rfl, ?_⟩
    obtain ⟨h1, _⟩ := handle_gecko_event_connection sdk env ρ (Event.le_connection_opened c) s
      (Or.inr (fun r hr => Event.noConfusion hr))
    have hl : (handle_gecko_event sdk env ρ (some (Event.le_connection_opened c)) s).1.lpn_active
        = 0 := by
      simp only [handle_gecko_event, dispatch]
      rw [lpn_deinit_globals]
    rw [hl] at hch
    have hs : s.num_connections = 0 := hinv (fun h => hch h.symm)
    refine ⟨hs, ?_⟩
    rw [h1, hs]
    rfl
  · by_cases hc : ∃ r, e = Event.le_connection_closed r
    · obtain ⟨r, rfl⟩ := hc
      right; left
      refine ⟨r, rfl, ?_⟩
      by_cases hd : s.boot_to_dfu = 0
      · rcases closed_globals sdk env ρ r s hd with h | ⟨_, h1, h⟩
        · rw [h] at hch
          exact absurd rfl hch
        · refine ⟨h1, ?_⟩
          rw [h]
      · rw [closed_dfu sdk env ρ r s hd] at hch
        exact absurd rfl hch
    · by_cases hi : ∃ p a v, e = Event.mesh_node_initialized p a v ∧ p ≠ 0
      · right; right; exact hi
      · exfalso
        apply hch
        apply handle_gecko_event_lpn_active
        · intro c hc2; exact ho ⟨c, hc2⟩
        · intro r hr; exact hc ⟨r, hr⟩
        · intro p a v hpa
          by_contra hp
          exact hi ⟨p, a, v, hpa, hp⟩

/-- C14, instance: with LPN active after node-initialized (provisioned), a connection-opened
event changes `lpn_active`, and it takes `num_connections` from 0 to 1. -/
theorem lpn_active_changes_only_at_boundaries_witness :
    (handle_gecko_event sample_sdk sample_env all_ok (some (Event.le_connection_opened 3))
      (run sample_sdk Globals.initial
        [ok_input (Event.mesh_node_initialized 1 0x0034 0)])).1.lpn_active ≠
      (run sample_sdk Globals.initial
        [ok_input (Event.mesh_node_initialized 1 0x0034 0)]).lpn_active ∧
    ((∃ c, Event.le_connection_opened 3 = Event.le_connection_opened c ∧
      (run sample_sdk Globals.initial
        [ok_input (Event.mesh_node_initialized 1 0x0034 0)]).num_connections = 0 ∧
      (handle_gecko_event sample_sdk sample_env all_ok (some (Event.le_connection_opened 3))
        (run sample_sdk Globals.initial
          [ok_input (Event.mesh_node_initialized 1 0x0034 0)])).1.num_connections = 1) ∨
    (∃ r, Event.le_connection_opened 3 = Event.le_connection_closed r ∧
      (run sample_sdk Globals.initial
        [ok_input (Event.mesh_node_initialized 1 0x0034 0)]).num_connections = 1 ∧
      (handle_gecko_event sample_sdk sample_env all_ok (some (Event.le_connection_opened 3))
        (run sample_sdk Globals.initial
          [ok_input (Event.mesh_node_initialized 1 0x0034 0)])).1.num_connections = 0) ∨
    (∃ p a v, Event.le_connection_opened 3 = Event.mesh_node_initialized p a v ∧ p ≠ 0)) :=
  ⟨by decide, lpn_active_changes_only_at_boundaries sample_sdk
    [ok_input (Event.mesh_node_initialized 1 0x0034 0)] sample_env all_ok
    (Event.le_connection_opened 3) (by decide)⟩

/-- What one event does to the node identity: `_elem_index` stays or becomes 0, and
`_my_address` is touched only by node-initialized with the provisioned flag set. -/
theorem handle_gecko_event_identity (sdk : Sdk) (env : Env) (ρ : Nat → Nat) (e : Event)
    (g : Globals) :
    ((handle_gecko_event sdk env ρ (some e) g).1._elem_index = g._elem_index ∨
      (handle_gecko_event sdk env ρ (some e) g).1._elem_index = 0) ∧
    (e.isProvisionedInit = false →
      (handle_gecko_event sdk env ρ (some e) g).1._my_address = g._my_address) := by
  cases e with
  | system_boot =>
    simp only [handle_gecko_event, dispatch]
    split
    · rw [initiate_factory_reset_globals]; exact ⟨Or.inl rfl, fun _ => rfl⟩
    · exact ⟨Or.inl rfl, fun _ => rfl⟩
  | hardware_soft_timer handle =>
    simp only [handle_gecko_event, dispatch]
    split_ifs <;> exact ⟨Or.inl rfl, fun _ => rfl⟩
  | mesh_node_initialized provisioned address ivi =>
    simp only [handle_gecko_event, dispatch, Event.isProvisionedInit]
    split
    · next hp =>
      obtain ⟨_, _, _, h4, _⟩ := lpn_init_frame ρ (switch_node_init ρ
        { g := { g with _my_address := address % 2 ^ 16, _elem_index := 0 },
          out := [Cmd.mesh_generic_client_init, Cmd.mesh_scene_client_init 0] })
      refine ⟨Or.inr h4, ?_⟩
      intro hf
      simp at hf
      exact absurd hf hp
    · exact ⟨Or.inl rfl, fun _ => rfl⟩
  | system_external_signal _ => exact ⟨Or.inl rfl, fun _ => rfl⟩
  | mesh_node_provisioning_started => exact ⟨Or.inl rfl, fun _ => rfl⟩
  | mesh_node_provisioned _ => exact ⟨Or.inr rfl, fun _ => rfl⟩
  | mesh_node_provisioning_failed _ => exact ⟨Or.inl rfl, fun _ => rfl⟩
  | le_connection_opened connection =>
    simp only [handle_gecko_event, dispatch]
    rw [lpn_deinit_globals]
    exact ⟨Or.inl rfl, fun _ => rfl⟩
  | le_connection_closed reason =>
    by_cases hd : g.boot_to_dfu = 0
    · rcases closed_globals sdk env ρ reason g hd with h | ⟨_, _, h⟩ <;> rw [h] <;>
        exact ⟨Or.inl rfl, fun _ => rfl⟩
    · rw [closed_dfu sdk env ρ reason g hd]
      exact ⟨Or.inl rfl, fun _ => rfl⟩
  | mesh_node_reset =>
    simp only [handle_gecko_event, dispatch]
    rw [initiate_factory_reset_globals]; exact ⟨Or.inl rfl, fun _ => rfl⟩
  | le_connection_parameters _ _ => exact ⟨Or.inl rfl, fun _ => rfl⟩
  | le_gap_adv_timeout => exact ⟨Or.inl rfl, fun _ => rfl⟩
  | gatt_server_user_write_request connection characteristic =>
    simp only [handle_gecko_event, dispatch]
    split <;> exact ⟨Or.inl rfl, fun _ => rfl⟩
  | mesh_lpn_friendship_established => exact ⟨Or.inl rfl, fun _ => rfl⟩
  | mesh_lpn_friendship_failed => exact ⟨Or.inl rfl, fun _ => rfl⟩
  | mesh_lpn_friendship_terminated =>
    simp only [handle_gecko_event, dispatch]
    split <;> exact ⟨Or.inl rfl, fun _ => rfl⟩
  | unmatched _ => exact ⟨Or.inl rfl, fun _ => rfl⟩

/-- C15 (amended): once `_elem_index = 0` has been assigned, no later sequence of events
changes `_elem_index`, and `_my_address` is unchanged after every later sequence that holds
no node-initialized event with the provisioned flag set. -/
theorem identity_stable (sdk : Sdk) (ins : List Input) :
    ∀ g : Globals, g._elem_index = 0 →
      (run sdk g ins)._elem_index = 0 ∧
      ((∀ i ∈ ins, i.evt.isProvisionedInit = false) →
        (run sdk g ins)._my_address = g._my_address) := by
  induction ins with
  | nil => intro g h0; exact ⟨h0, fun _ => rfl⟩
  | cons i is ih =>
    intro g h0
    obtain ⟨h1, h2⟩ := handle_gecko_event_identity sdk i.env i.ρ i.evt g
    have h0n : (handle_gecko_event sdk i.env i.ρ (some i.evt) g).1._elem_index = 0 := by
      rcases h1 with h | h
      · rw [h]; exact h0
      · exact h
    obtain ⟨ih1, ih2⟩ := ih _ h0n
    refine ⟨ih1, ?_⟩
    intro hall
    have hi : i.evt.isProvisionedInit = false := hall i (List.mem_cons_self _ _)
    have his : ∀ j ∈ is, j.evt.isProvisionedInit = false :=
      fun j hj => hall j (List.mem_cons_of_mem _ hj)
    simp only [run]
    rw [ih2 his, h2 hi]

/-- C15 (amended), instance: after node-initialized (provisioned, 0x0034), the events
provisioned(0x0012), connection-opened, connection-closed and node-reset leave the identity
at element 0, address 0x0034. -/
theorem identity_stable_witness :
    (run sample_sdk
      (run sample_sdk Globals.initial [ok_input (Event.mesh_node_initialized 1 0x0034 0)])
      [ok_input (Event.mesh_node_provisioned 0x0012), ok_input (Event.le_connection_opened 3),
       ok_input (Event.le_connection_closed 0), ok_input Event.mesh_node_reset])._elem_index
      = 0 ∧
    (run sample_sdk
      (run sample_sdk Globals.initial [ok_input (Event.mesh_node_initialized 1 0x0034 0)])
      [ok_input (Event.mesh_node_provisioned 0x0012), ok_input (Event.le_connection_opened 3),
       ok_input (Event.le_connection_closed 0), ok_input Event.mesh_node_reset])._my_address
      = 0x0034 := by
  have h := identity_stable sample_sdk
    [ok_input (Event.mesh_node_provisioned 0x0012), ok_input (Event.le_connection_opened 3),
     ok_input (Event.le_connection_closed 0), ok_input Event.mesh_node_reset]
    (run sample_sdk Globals.initial [ok_input (Event.mesh_node_initialized 1 0x0034 0)])
    (by decide)
  exact ⟨h.1, (h.2 (by decide)).trans (by decide)⟩

/-- C15, counterexample: node-initialized (provisioned, 0x0034) assigns the identity, and a
later node-initialized (provisioned, 0x0056) changes `_my_address`. -/
theorem identity_reassigned :
    (run sample_sdk Globals.initial
      [ok_input (Event.mesh_node_initialized 1 0x0034 0)])._elem_index = 0 ∧
    (run sample_sdk Globals.initial
      [ok_input (Event.mesh_node_initialized 1 0x0034 0)])._my_address = 0x0034 ∧
    (run sample_sdk Globals.initial
      [ok_input (Event.mesh_node_initialized 1 0x0034 0),
       ok_input (Event.mesh_node_initialized 1 0x0056 0)])._my_address ≠
    (run sample_sdk Globals.initial
      [ok_input (Event.mesh_node_initialized 1 0x0034 0)])._my_address := by
  decide

/-- C16: the provisioned event sets `_elem_index = 0`, issues only the mesh-lib init (so no
LPN command) and leaves `lpn_active` unchanged; node-initialized with the provisioned flag
set instead ends in `lpn_init`, which with LPN off and no connection issues the LPN init
command. -/
theorem provisioned_event_skips_lpn (sdk : Sdk) (env : Env) (ρ : Nat → Nat)
    (address p a ivi : Nat) (g : Globals) :
    handle_gecko_event sdk env ρ (some (Event.mesh_node_provisioned address)) g =
      ({ g with _elem_index := 0 }, [Cmd.mesh_lib_init 8]) ∧
    (∀ c ∈ (handle_gecko_event sdk env ρ (some (Event.mesh_node_provisioned address)) g).2,
      c.isLpn = false) ∧
    (handle_gecko_event sdk env ρ (some (Event.mesh_node_provisioned address)) g).1.lpn_active
      = g.lpn_active ∧
    handle_gecko_event sdk env ρ (some (Event.mesh_node_initialized (p + 1) a ivi)) g =
      ((lpn_init ρ { g := { g with _my_address := a % 2 ^ 16, _elem_index := 0 },
                     out := [Cmd.mesh_generic_client_init, Cmd.mesh_scene_client_init 0,
                       Cmd.mesh_lib_init 8] }).g,
       (lpn_init ρ { g := { g with _my_address := a % 2 ^ 16, _elem_index := 0 },
                     out := [Cmd.mesh_generic_client_init, Cmd.mesh_scene_client_init 0,
                       Cmd.mesh_lib_init 8] }).out) ∧
    (g.lpn_active = 0 → g.num_connections = 0 → Cmd.mesh_lpn_init ∈
      (handle_gecko_event sdk env ρ (some (Event.mesh_node_initialized (p + 1) a ivi)) g).2) := by
  have hinit : handle_gecko_event sdk env ρ
      (some (Event.mesh_node_initialized (p + 1) a ivi)) g =
      ((lpn_init ρ { g := { g with _my_address := a % 2 ^ 16, _elem_index := 0 },
                     out := [Cmd.mesh_generic_client_init, Cmd.mesh_scene_client_init 0,
                       Cmd.mesh_lib_init 8] }).g,
       (lpn_init ρ { g := { g with _my_address := a % 2 ^ 16, _elem_index := 0 },
                     out := [Cmd.mesh_generic_client_init, Cmd.mesh_scene_client_init 0,
                       Cmd.mesh_lib_init 8] }).out) := by
    simp only [handle_gecko_event, dispatch]
    rw [if_pos (Nat.succ_ne_zero p)]
    simp only [switch_node_init, gecko_cmd, List.nil_append, List.cons_append]
  refine ⟨rfl, ?_, rfl, hinit, ?_⟩
  · intro c hc
    have hc2 : c = Cmd.mesh_lib_init 8 := by
      simpa [handle_gecko_event, dispatch, switch_node_init, gecko_cmd] using hc
    rw [hc2]
    rfl
  · intro h1 h2
    rw [hinit]
    simp only
    unfold lpn_init gecko_cmd
    simp only [h1, h2]
    split_ifs <;> simp at *

/-- C16, instance: from the initial globals the provisioned event leaves LPN off, while
node-initialized (provisioned) issues the LPN init command. -/
theorem provisioned_event_skips_lpn_witness :
    Cmd.mesh_lpn_init ∈
      (handle_gecko_event sample_sdk sample_env all_ok
        (some (Event.mesh_node_initialized (0 + 1) 0x0034 0)) Globals.initial).2 :=
  (provisioned_event_skips_lpn sample_sdk sample_env all_ok 0x0012 0 0x0034 0
    Globals.initial).2.2.2.2 rfl rfl

/-- C17: along boot (no button held), node-initialized (unprovisioned),
provisioning-started, provisioned(a) from the initial globals, the commands issued are
exactly the ones listed: generic-client init and scene-client init once each, the
unprovisioned beaconing once, with bearer mask 0x3, while handling node-initialized, and
the provisioned event issues only the mesh-lib init. -/
theorem provisioning_scenario_commands (sdk : Sdk) (env1 env2 env3 env4 : Env)
    (ρ1 ρ2 ρ3 ρ4 : Nat → Nat) (a0 ivi a : Nat)
    (hb0 : env1.GPIO_PinInGet Button_port Button_pin ≠ 0)
    (hb1 : env1.GPIO_PinInGet Button_port Button1 ≠ 0) :
    trace sdk Globals.initial
      [{ evt := Event.system_boot, env := env1, ρ := ρ1 },
       { evt := Event.mesh_node_initialized 0 a0 ivi, env := env2, ρ := ρ2 },
       { evt := Event.mesh_node_provisioning_started, env := env3, ρ := ρ3 },
       { evt := Event.mesh_node_provisioned a, env := env4, ρ := ρ4 }] =
      [Cmd.system_get_bt_address,
       Cmd.gatt_server_write_attribute_value sdk.gattdb_device_name 0
        (device_name env1.bt_address).length (device_name env1.bt_address),
       Cmd.mesh_node_init,
       Cmd.mesh_generic_client_init, Cmd.mesh_scene_client_init 0,
       Cmd.mesh_node_start_unprov_beaconing 0x3,
       Cmd.hardware_set_soft_timer 8192 TIMER_ID_PROVISIONING 0,
       Cmd.mesh_lib_init 8] ∧
    (handle_gecko_event sdk env2 ρ2 (some (Event.mesh_node_initialized 0 a0 ivi))
      (handle_gecko_event sdk env1 ρ1 (some Event.system_boot) Globals.initial).1).2 =
      [Cmd.mesh_generic_client_init, Cmd.mesh_scene_client_init 0,
       Cmd.mesh_node_start_unprov_beaconing 0x3] ∧
    (∀ g bearer, Cmd.mesh_node_start_unprov_beaconing bearer ∉
      (handle_gecko_event sdk env4 ρ4 (some (Event.mesh_node_provisioned a)) g).2) ∧
    (trace sdk Globals.initial
      [{ evt := Event.system_boot, env := env1, ρ := ρ1 },
       { evt := Event.mesh_node_initialized 0 a0 ivi, env := env2, ρ := ρ2 },
       { evt := Event.mesh_node_provisioning_started, env := env3, ρ := ρ3 },
       { evt := Event.mesh_node_provisioned a, env := env4, ρ := ρ4 }]).count
        Cmd.mesh_generic_client_init = 1 ∧
    ((trace sdk Globals.initial
      [{ evt := Event.system_boot, env := env1, ρ := ρ1 },
       { evt := Event.mesh_node_initialized 0 a0 ivi, env := env2, ρ := ρ2 },
       { evt := Event.mesh_node_provisioning_started, env := env3, ρ := ρ3 },
       { evt := Event.mesh_node_provisioned a, env := env4, ρ := ρ4 }]).filter
        (fun c => match c with
          | Cmd.mesh_scene_client_init _ => true
          | _ => false)).length = 1 ∧
    ((trace sdk Globals.initial
      [{ evt := Event.system_boot, env := env1, ρ := ρ1 },
       { evt := Event.mesh_node_initialized 0 a0 ivi, env := env2, ρ := ρ2 },
       { evt := Event.mesh_node_provisioning_started, env := env3, ρ := ρ3 },
       { evt := Event.mesh_node_provisioned a, env := env4, ρ := ρ4 }]).filter
        (fun c => match c with
          | Cmd.mesh_node_start_unprov_beaconing _ => true
          | _ => false)) = [Cmd.mesh_node_start_unprov_beaconing 0x3] := by
  have hboot : handle_gecko_event sdk env1 ρ1 (some Event.system_boot) Globals.initial =
      (Globals.initial, [Cmd.system_get_bt_address,
        Cmd.gatt_server_write_attribute_value sdk.gattdb_device_name 0
          (device_name env1.bt_address).length (device_name env1.bt_address),
        Cmd.mesh_node_init]) := by
    simp only [handle_gecko_event, dispatch]
    rw [if_neg (by rintro (h | h); exact hb0 h; exact hb1 h)]
    rfl
  have htrace : trace sdk Globals.initial
      [{ evt := Event.system_boot, env := env1, ρ := ρ1 },
       { evt := Event.mesh_node_initialized 0 a0 ivi, env := env2, ρ := ρ2 },
       { evt := Event.mesh_node_provisioning_started, env := env3, ρ := ρ3 },
       { evt := Event.mesh_node_provisioned a, env := env4, ρ := ρ4 }] =
      [Cmd.system_get_bt_address,
       Cmd.gatt_server_write_attribute_value sdk.gattdb_device_name 0
        (device_name env1.bt_address).length (device_name env1.bt_address),
       Cmd.mesh_node_init,
       Cmd.mesh_generic_client_init, Cmd.mesh_scene_client_init 0,
       Cmd.mesh_node_start_unprov_beaconing 0x3,
       Cmd.hardware_set_soft_timer 8192 TIMER_ID_PROVISIONING 0,
       Cmd.mesh_lib_init 8] := by
    simp only [trace, hboot]
    rfl
  refine ⟨htrace, ?_, ?_, ?_, ?_, ?_⟩
  · rw [hboot]; rfl
  · intro g bearer
    simp [handle_gecko_event, dispatch, switch_node_init, gecko_cmd]
  · rw [htrace]; simp [List.count_cons]
  · rw [htrace]; simp [List.filter]
  · rw [htrace]; simp [List.filter]

/-- C17, instance: the scenario with address 0x0012 in the sample environment. -/
theorem provisioning_scenario_commands_witness :
    (trace sample_sdk Globals.initial
      [{ evt := Event.system_boot, env := sample_env, ρ := all_ok },
       { evt := Event.mesh_node_initialized 0 0 0, env := sample_env, ρ := all_ok },
       { evt := Event.mesh_node_provisioning_started, env := sample_env, ρ := all_ok },
       { evt := Event.mesh_node_provisioned 0x0012, env := sample_env, ρ := all_ok }]).count
        Cmd.mesh_generic_client_init = 1 :=
  (provisioning_scenario_commands sample_sdk sample_env sample_env sample_env sample_env
    all_ok all_ok all_ok all_ok 0 0 0x0012 (by decide) (by decide)).2.2.2.1

/-- C18: an event whose identifier matches no case of the switch, and the external-signal
event, issue no command and leave every global unchanged. -/
theorem unmatched_and_external_signal_ignored (sdk : Sdk) (env : Env) (ρ : Nat → Nat)
    (evt_id extsignals : Nat) (g : Globals) :
    handle_gecko_event sdk env ρ (some (Event.unmatched evt_id)) g = (g, []) ∧
    handle_gecko_event sdk env ρ (some (Event.system_external_signal extsignals)) g =
      (g, []) ∧
    (∀ c ∈ GPIO_callback env, ∃ m, c = Cmd.external_signal m ∧
      handle_gecko_event sdk env ρ (some (Event.system_external_signal m)) g = (g, [])) := by
  refine ⟨rfl, rfl, ?_⟩
  intro c hc
  unfold GPIO_callback at hc
  split_ifs at hc
  · exact ⟨EVENT_PB0_FALLING, by simpa using hc, rfl⟩
  · exact ⟨EVENT_PB0_RISING, by simpa using hc, rfl⟩

/-- C19: an event that is neither connection-opened nor connection-closed leaves
`num_connections` and `conn_handle` unchanged. -/
theorem connection_state_frame (sdk : Sdk) (env : Env) (ρ : Nat → Nat) (e : Event)
    (g : Globals) (ho : ∀ c, e ≠ Event.le_connection_opened c)
    (hc : ∀ r, e ≠ Event.le_connection_closed r) :
    (handle_gecko_event sdk env ρ (some e) g).1.num_connections = g.num_connections ∧
    (handle_gecko_event sdk env ρ (some e) g).1.conn_handle = g.conn_handle := by
  obtain ⟨h1, h2⟩ := handle_gecko_event_connection sdk env ρ e g (Or.inr hc)
  rw [h1, h2]
  cases e with
  | le_connection_opened c => exact absurd rfl (ho c)
  | le_connection_closed r => exact absurd rfl (hc r)
  | _ => exact ⟨rfl, rfl⟩

/-- C19, instance: with connection 3 open, the OTA-control write issues a connection-close
command, yet `num_connections` stays 1 and `conn_handle` stays 3. -/
theorem connection_state_frame_witness :
    Cmd.le_connection_close 3 ∈
      (handle_gecko_event sample_sdk sample_env all_ok
        (some (Event.gatt_server_user_write_request 3 22))
        (run sample_sdk Globals.initial [ok_input (Event.le_connection_opened 3)])).2 ∧
    (handle_gecko_event sample_sdk sample_env all_ok
      (some (Event.gatt_server_user_write_request 3 22))
      (run sample_sdk Globals.initial [ok_input (Event.le_connection_opened 3)])
      ).1.num_connections = 1 ∧
    (handle_gecko_event sample_sdk sample_env all_ok
      (some (Event.gatt_server_user_write_request 3 22))
      (run sample_sdk Globals.initial [ok_input (Event.le_connection_opened 3)])
      ).1.conn_handle = 3 := by
  have h := connection_state_frame sample_sdk sample_env all_ok
    (Event.gatt_server_user_write_request 3 22)
    (run sample_sdk Globals.initial [ok_input (Event.le_connection_opened 3)])
    (fun c => by simp) (fun r => by simp)
  exact ⟨by decide, h.1.trans (by decide), h.2.trans (by decide)⟩

/-- The events other than soft-timer-elapsed never issue `system_reset(0)`. -/
theorem no_normal_reset_outside_timer (sdk : Sdk) (env : Env) (ρ : Nat → Nat) (e : Event)
    (g : Globals) (ht : ∀ h, e ≠ Event.hardware_soft_timer h) :
    Cmd.system_reset 0 ∉ (handle_gecko_event sdk env ρ (some e) g).2 := by
  cases e with
  | system_boot =>
    simp only [handle_gecko_event, dispatch]
    split
    · rw [initiate_factory_reset_out]
      split_ifs <;> simp
    · simp [set_device_name, gecko_cmd]
  | hardware_soft_timer handle => exact absurd rfl (ht handle)
  | mesh_node_initialized provisioned address ivi =>
    simp only [handle_gecko_event, dispatch]
    split
    · obtain ⟨l, hl, hp⟩ := lpn_init_out ρ (switch_node_init ρ
        { g := { g with _my_address := address % 2 ^ 16, _elem_index := 0 },
          out := [Cmd.mesh_generic_client_init, Cmd.mesh_scene_client_init 0] })
      intro hm
      have hm1 : Cmd.system_reset 0 ∈ (lpn_init ρ (switch_node_init ρ
          { g := { g with _my_address := address % 2 ^ 16, _elem_index := 0 },
            out := [Cmd.mesh_generic_client_init, Cmd.mesh_scene_client_init 0] })).out := hm
      rw [hl] at hm1
      have hm2 : Cmd.system_reset 0 ∈ l := by
        simpa [switch_node_init, gecko_cmd] using hm1
      have hm3 := hp.subset hm2
      simp [lpn_enter_cmds] at hm3
    · simp [gecko_cmd]
  | system_external_signal _ => simp [handle_gecko_event, dispatch]
  | mesh_node_provisioning_started => simp [handle_gecko_event, dispatch, gecko_cmd]
  | mesh_node_provisioned _ =>
    simp [handle_gecko_event, dispatch, switch_node_init, gecko_cmd]
  | mesh_node_provisioning_failed _ => simp [handle_gecko_event, dispatch, gecko_cmd]
  | le_connection_opened connection =>
    simp only [handle_gecko_event, dispatch]
    unfold lpn_deinit gecko_cmd
    split_ifs <;> simp
  | le_connection_closed reason =>
    simp only [handle_gecko_event, dispatch_closed]
    split
    · simp [gecko_cmd]
    · obtain ⟨l, hl, hp⟩ := closed_tail_out ρ { g := g, out := [] }
      rw [hl]
      intro hm
      have hm2 : Cmd.system_reset 0 ∈ l := by
        simpa using hm
      have hm3 := hp.subset hm2
      simp [lpn_enter_cmds] at hm3
  | mesh_node_reset =>
    simp only [handle_gecko_event, dispatch]
    rw [initiate_factory_reset_out]
    split_ifs <;> simp
  | le_connection_parameters _ _ => simp [handle_gecko_event, dispatch]
  | le_gap_adv_timeout => simp [handle_gecko_event, dispatch]
  | gatt_server_user_write_request connection characteristic =>
    simp only [handle_gecko_event, dispatch]
    split <;> simp [gecko_cmd]
  | mesh_lpn_friendship_established => simp [handle_gecko_event, dispatch]
  | mesh_lpn_friendship_failed => simp [handle_gecko_event, dispatch]
  | mesh_lpn_friendship_terminated =>
    simp only [handle_gecko_event, dispatch]
    split <;> simp [gecko_cmd]
  | unmatched _ => simp [handle_gecko_event, dispatch]

/-- C20: `system_reset(0)` is issued exactly by a soft-timer event with handle
`TIMER_ID_FACTORY_RESET` (77) or `TIMER_ID_RESTART` (78); provisioning-failed, node-reset
and boot issue no system reset of any mode; handle `TIMER_ID_FRIEND_FIND` (20) issues
exactly establish-friendship(0); every other timer handle issues nothing. -/
theorem normal_reset_only_on_timer (sdk : Sdk) (env : Env) (ρ : Nat → Nat) (e : Event)
    (g : Globals) :
    (Cmd.system_reset 0 ∈ (handle_gecko_event sdk env ρ (some e) g).2 ↔
      (e = Event.hardware_soft_timer 78 ∨ e = Event.hardware_soft_timer 77)) ∧
    (∀ result m, Cmd.system_reset m ∉
      (handle_gecko_event sdk env ρ (some (Event.mesh_node_provisioning_failed result)) g).2) ∧
    (∀ m, Cmd.system_reset m ∉
      (handle_gecko_event sdk env ρ (some Event.mesh_node_reset) g).2) ∧
    (∀ m, Cmd.system_reset m ∉
      (handle_gecko_event sdk env ρ (some Event.system_boot) g).2) ∧
    handle_gecko_event sdk env ρ (some (Event.hardware_soft_timer 20)) g =
      (g, [Cmd.mesh_lpn_establish_friendship 0]) ∧
    (∀ h, h ≠ 77 → h ≠ 78 → h ≠ 20 →
      handle_gecko_event sdk env ρ (some (Event.hardware_soft_timer h)) g = (g, [])) ∧
    TIMER_ID_RESTART = 78 ∧ TIMER_ID_FACTORY_RESET = 77 ∧ TIMER_ID_FRIEND_FIND = 20 := by
  refine ⟨?_, ?_, ?_, ?_, rfl, ?_, rfl, rfl, rfl⟩
  · constructor
    · intro hm
      by_cases ht : ∃ h, e = Event.hardware_soft_timer h
      · obtain ⟨h, rfl⟩ := ht
        by_cases h77 : h = 77
        · right; rw [h77]
        · by_cases h78 : h = 78
          · left; rw [h78]
          · exfalso
            simp only [handle_gecko_event, dispatch, TIMER_ID_FACTORY_RESET, TIMER_ID_RESTART,
              TIMER_ID_FRIEND_FIND, gecko_cmd] at hm
            rw [if_neg h77, if_neg h78] at hm
            split_ifs at hm <;> simp at hm
      · exfalso
        exact no_normal_reset_outside_timer sdk env ρ e g
          (fun h hh => ht ⟨h, hh⟩) hm
    · rintro (rfl | rfl) <;>
        simp [handle_gecko_event, dispatch, TIMER_ID_FACTORY_RESET, TIMER_ID_RESTART, gecko_cmd]
  · intro result m
    simp [handle_gecko_event, dispatch, gecko_cmd]
  · intro m
    simp only [handle_gecko_event, dispatch]
    rw [initiate_factory_reset_out]
    split_ifs <;> simp
  · intro m
    simp only [handle_gecko_event, dispatch]
    split
    · rw [initiate_factory_reset_out]
      split_ifs <;> simp
    · simp [set_device_name, gecko_cmd]
  · intro h h77 h78 h20
    simp only [handle_gecko_event, dispatch, TIMER_ID_FACTORY_RESET, TIMER_ID_RESTART,
      TIMER_ID_FRIEND_FIND]
    rw [if_neg h77, if_neg h78, if_neg h20]

/-- C20, instance: timer handle 66 (the provisioning blink timer) issues no command. -/
theorem normal_reset_only_on_timer_witness :
    handle_gecko_event sample_sdk sample_env all_ok (some (Event.hardware_soft_timer 66))
      Globals.initial = (Globals.initial, []) :=
  (normal_reset_only_on_timer sample_sdk sample_env all_ok (Event.hardware_soft_timer 66)
    Globals.initial).2.2.2.2.2.1 66 (by decide) (by decide) (by decide)

/-- C21: from the initial globals, `boot_to_dfu != 0` holds after a sequence of events
exactly when one of them was a GATT user-write-request to the OTA-control characteristic;
such a request sets the flag to 1, sends the success write response on the requesting
connection and then closes that connection; a write request to any other characteristic
issues no command and changes no global. -/
theorem boot_to_dfu_iff_ota_write (sdk : Sdk) (ins : List Input) (env : Env) (ρ : Nat → Nat)
    (connection characteristic : Nat) (g : Globals) :
    ((run sdk Globals.initial ins).boot_to_dfu ≠ 0 ↔
      ∃ i ∈ ins, ∃ c, i.evt = Event.gatt_server_user_write_request c sdk.gattdb_ota_control) ∧
    handle_gecko_event sdk env ρ
      (some (Event.gatt_server_user_write_request connection sdk.gattdb_ota_control)) g =
      ({ g with boot_to_dfu := 1 },
       [Cmd.gatt_server_send_user_write_response connection sdk.gattdb_ota_control
          sdk.bg_err_success,
        Cmd.le_connection_close connection]) ∧
    (characteristic ≠ sdk.gattdb_ota_control →
      handle_gecko_event sdk env ρ
        (some (Event.gatt_server_user_write_request connection characteristic)) g = (g, [])) := by
  refine ⟨?_, ?_, ?_⟩
  · rw [run_boot_to_dfu]
    constructor
    · rintro (h | ⟨i, hi, ho⟩)
      · exact absurd rfl h
      · refine ⟨i, hi, ?_⟩
        cases hev : i.evt <;> rw [hev] at ho <;> simp [Event.isOtaWrite] at ho
        next c ch => exact ⟨c, by rw [ho]⟩
    · rintro ⟨i, hi, c, hc⟩
      right
      exact ⟨i, hi, by rw [hc]; simp [Event.isOtaWrite]⟩
  · simp [handle_gecko_event, dispatch, gecko_cmd]
  · intro hne
    simp [handle_gecko_event, dispatch, hne]

/-- C21, instance: a write to characteristic 5 (not OTA control, which is 22 in the sample
header values) does nothing. -/
theorem boot_to_dfu_iff_ota_write_witness :
    handle_gecko_event sample_sdk sample_env all_ok
      (some (Event.gatt_server_user_write_request 3 5)) Globals.initial =
      (Globals.initial, []) :=
  (boot_to_dfu_iff_ota_write sample_sdk [] sample_env all_ok 3 5 Globals.initial).2.2
    (by decide)

/-- C22: whatever level the PB0 pin reads, `GPIO_callback` injects exactly one external
signal, whose mask is `EVENT_PB0_RISING` (1 << 1 = 2) or `EVENT_PB0_FALLING` (1 << 2 = 4);
the two masks are distinct; level 1 injects `EVENT_PB0_FALLING` and level 0 injects
`EVENT_PB0_RISING`, so the signals for the two levels differ. -/
theorem GPIO_callback_one_signal (env env1 env0 : Env) :
    (∃ m, GPIO_callback env = [Cmd.external_signal m] ∧
      (m = EVENT_PB0_RISING ∨ m = EVENT_PB0_FALLING)) ∧
    EVENT_PB0_RISING = 2 ∧ EVENT_PB0_FALLING = 4 ∧ EVENT_PB0_RISING ≠ EVENT_PB0_FALLING ∧
    (env.GPIO_PinInGet Button_port Button_pin = 1 →
      GPIO_callback env = [Cmd.external_signal EVENT_PB0_FALLING]) ∧
    (env.GPIO_PinInGet Button_port Button_pin = 0 →
      GPIO_callback env = [Cmd.external_signal EVENT_PB0_RISING]) ∧
    (env1.GPIO_PinInGet Button_port Button_pin = 1 →
      env0.GPIO_PinInGet Button_port Button_pin = 0 →
      GPIO_callback env1 ≠ GPIO_callback env0) := by
  refine ⟨?_, by decide, by decide, by decide, ?_, ?_, ?_⟩
  · unfold GPIO_callback
    split
    · exact ⟨EVENT_PB0_FALLING, rfl, Or.inr rfl⟩
    · exact ⟨EVENT_PB0_RISING, rfl, Or.inl rfl⟩
  · intro h
    unfold GPIO_callback
    rw [if_pos h]
  · intro h
    unfold GPIO_callback
    rw [if_neg (by rw [h]; decide)]
  · intro h1 h0
    unfold GPIO_callback
    rw [if_pos h1, if_neg (by rw [h0]; decide)]
    decide

/-- C22, instance: with PB0 held (level 0) the callback injects mask 2, with PB0 released
(level 1) mask 4. -/
theorem GPIO_callback_one_signal_witness :
    GPIO_callback sample_env_pb0 = [Cmd.external_signal 2] ∧
    GPIO_callback sample_env = [Cmd.external_signal 4] :=
  ⟨((GPIO_callback_one_signal sample_env_pb0 sample_env sample_env_pb0).2.2.2.2.2.1
      (by decide)).trans (by decide),
   ((GPIO_callback_one_signal sample_env sample_env sample_env_pb0).2.2.2.2.1
      (by decide)).trans (by decide)⟩

/-- The digit `hexDigit` prints is the one at that place among the sixteen hex digits. -/
theorem hexDigit_eq (d : Nat) (hd : d < 16) : hexDigit d = hex_digits.getD d '?' := by
  interval_cases d <;> rfl

/-- The conversion `%02x` prints a byte as two lowercase hex digits, high nibble first. -/
theorem fmt02x_eq (b : Nat) : fmt02x b = spec_hex_byte (b % 256) := by
  unfold fmt02x spec_hex_byte
  have h1 : b % 256 / 16 < 16 := by omega
  have h2 : b % 256 % 16 < 16 := by omega
  rw [hexDigit_eq _ h1, hexDigit_eq _ h2]

/-- C23: the device name is "switch node " followed by `addr[1]` and `addr[0]`, each as
two lowercase hex digits, separated by a colon; it is 17 characters long, so with its
terminator it fits the 20-byte buffer, and `set_device_name` issues one GATT attribute
write, at offset 0 with length 17, carrying that name. -/
theorem device_name_format (sdk : Sdk) (ρ : Nat → Nat) (a : bd_addr) (x : Exec) :
    device_name a =
      "switch node ".toList ++ spec_hex_byte (a.addr 1 % 256) ++ [':'] ++
        spec_hex_byte (a.addr 0 % 256) ∧
    (device_name a).length = 17 ∧
    (device_name a).length + 1 ≤ NAME_BUFFER_SIZE ∧
    set_device_name sdk ρ a x =
      { x with out := x.out ++
        [Cmd.gatt_server_write_attribute_value sdk.gattdb_device_name 0 17 (device_name a)] } := by
  have hlen : (device_name a).length = 17 := by
    simp [device_name, fmt02x]
  refine ⟨?_, hlen, ?_, ?_⟩
  · unfold device_name
    rw [fmt02x_eq, fmt02x_eq]
  · rw [hlen]; decide
  · unfold set_device_name gecko_cmd
    simp only [hlen]

/-- C23, instance: for the sample address (last two bytes 0x12, 0x34) the name is
"switch node 12:34". -/
theorem device_name_format_witness :
    device_name sample_env.bt_address = "switch node 12:34".toList :=
  (device_name_format sample_sdk all_ok sample_env.bt_address
    { g := Globals.initial, out := [] }).1.trans (by decide)

end SwitchNode
